import Mathlib

/-!
Verification development for the CREO course-generation job pipeline.

The definitions below are a shallow embedding of the job orchestration core:

* `src/src/lib/job-runner.ts` — the dispatcher (`processNextJob`) and the
  five-stage pipeline (`executeGenerateCourse`, `updateProgress`, `logEvent`);
* the Zod schemas (`ModuleSchema`, `CourseSkeletonSchema`,
  `ModuleLessonsSchema`, `QuizQuestionSchema`, `ModuleQuizSchema`,
  `ModuleResourcesSchema`) that constrain provider output, embedded as
  decidable validity predicates.

Effectful provider calls (`llmProvider.generateCourseSkeleton`,
`llmProvider.generateLessons`, `llmProvider.generateQuiz`,
`youtubeProvider.searchVideos`) are embedded via an `Oracle` record that
gives the result of each external call; database writes are embedded as
explicit state passing (the `RunState` record accumulates the written job
rows, job events, and the course artifact under construction).
-/

namespace Creo

/-- Lesson type enum from `LessonStepSchema` (`learn`/`practice`/`apply`). -/
inductive LessonType where
  | learn
  | practice
  | apply
  deriving DecidableEq, Repr

/-- Quiz question type enum from `QuizQuestionSchema` (`mcq`/`short`/`code`). -/
inductive QuestionType where
  | mcq
  | short
  | code
  deriving DecidableEq, Repr

/-- Event severity from `logEvent` (`info`/`warn`/`error`). -/
inductive Severity where
  | info
  | warn
  | error
  deriving DecidableEq, Repr

/-- One module of a course skeleton (`ModuleSchema`). -/
structure ModuleData where
  order : Nat
  title : String
  description : String
  outcomes : List String
  deriving DecidableEq, Repr

/-- Provider output of stage 1 (`CourseSkeletonSchema`). -/
structure Skeleton where
  topic : String
  level : String
  modules : List ModuleData
  deriving DecidableEq, Repr

/-- One lesson step from the LLM (`LessonStepSchema`); `content` is optional. -/
structure LessonStep where
  order : Nat
  title : String
  type : LessonType
  estimatedMinutes : Nat
  content : Option String
  deriving DecidableEq, Repr

/-- Provider output of stage 2 for one module (`ModuleLessonsSchema`). -/
structure ModuleLessons where
  moduleOrder : Nat
  steps : List LessonStep
  deriving DecidableEq, Repr

/-- One quiz question from the LLM (`QuizQuestionSchema`). -/
structure QuizQuestion where
  type : QuestionType
  question : String
  options : Option (List String)
  answerKey : String
  explanation : String
  difficulty : String
  tags : List String
  deriving DecidableEq, Repr

/-- Provider output of stage 3 for one module (`ModuleQuizSchema`). -/
structure ModuleQuiz where
  moduleOrder : Nat
  questions : List QuizQuestion
  deriving DecidableEq, Repr

/-- One video from the search provider (`YouTubeResourceSchema`). -/
structure Video where
  title : String
  url : String
  channel : Option String
  durationSeconds : Option Nat
  thumbnailUrl : Option String
  reason : Option String
  deriving DecidableEq, Repr

/-- The input record passed to `generateCourseSkeleton` (topic, level,
daily time budget), taken from the `course` row. -/
structure SkelInput where
  topic : String
  level : String
  timePerDay : Nat
  deriving DecidableEq, Repr

/-- The input record passed to `generateLessons` for one module. -/
structure LessonsInput where
  topic : String
  order : Nat
  title : String
  description : String
  outcomes : List String
  timePerDay : Nat
  deriving DecidableEq, Repr

/-- The input record passed to `generateQuiz` for one module. -/
structure QuizInput where
  topic : String
  order : Nat
  title : String
  description : String
  deriving DecidableEq, Repr

/-- A thrown JavaScript error as caught by the job runner: optional `code`
property and a `message`. -/
structure JsError where
  code : Option String
  message : String
  deriving DecidableEq, Repr

/-- Modelled from the spec: the provider implementations
(`src/lib/providers/llm.ts`, `src/lib/providers/youtube.ts`) are not under
`src/`; following spec §6, each external call is embedded as a function from
its input to either a thrown error or a result.  `llmSkeleton` takes the
attempt number first, so the two calls the orchestrator makes with identical
inputs may return different results; `mockSkeleton` is the deterministic
fallback provider obtained from `createLLMProvider()` in the catch branch. -/
structure Oracle where
  llmSkeleton : Nat → SkelInput → Except JsError Skeleton
  mockSkeleton : SkelInput → Except JsError Skeleton
  llmLessons : LessonsInput → Except JsError ModuleLessons
  llmQuiz : QuizInput → Except JsError ModuleQuiz
  ytSearch : String → Nat → Except JsError (List Video)

/-- Schema `ModuleSchema`: order 1–5, title 5–100 chars, description 10–500 chars,
2–6 outcomes. -/
def validModuleData (m : ModuleData) : Bool :=
  1 ≤ m.order && m.order ≤ 5 &&
  5 ≤ m.title.length && m.title.length ≤ 100 &&
  10 ≤ m.description.length && m.description.length ≤ 500 &&
  2 ≤ m.outcomes.length && m.outcomes.length ≤ 6

/-- Schema `CourseSkeletonSchema`: exactly 5 modules, each valid. -/
def validSkeleton (s : Skeleton) : Bool :=
  s.modules.length = 5 && s.modules.all validModuleData

/-- Schema `LessonStepSchema`: order ≥ 1, title 5–150 chars, 1–60 estimated minutes. -/
def validLessonStep (l : LessonStep) : Bool :=
  1 ≤ l.order && 5 ≤ l.title.length && l.title.length ≤ 150 &&
  1 ≤ l.estimatedMinutes && l.estimatedMinutes ≤ 60

/-- Schema `ModuleLessonsSchema`: 3–10 steps, each valid. -/
def validModuleLessons (ls : ModuleLessons) : Bool :=
  1 ≤ ls.moduleOrder && ls.moduleOrder ≤ 5 &&
  3 ≤ ls.steps.length && ls.steps.length ≤ 10 &&
  ls.steps.all validLessonStep

/-- Schema `QuizQuestionSchema` with its refinement: question ≥ 10 chars,
explanation ≥ 10 chars, difficulty in the enum, and for `mcq` at least two
options with the answer key among them. -/
def validQuizQuestion (q : QuizQuestion) : Bool :=
  10 ≤ q.question.length && 10 ≤ q.explanation.length &&
  (q.difficulty = "easy" || q.difficulty = "medium" || q.difficulty = "hard") &&
  (match q.type, q.options with
   | QuestionType.mcq, some opts => 2 ≤ opts.length && opts.contains q.answerKey
   | QuestionType.mcq, none => false
   | _, _ => true)

/-- Schema `ModuleQuizSchema`: 5–15 questions, each valid. -/
def validModuleQuiz (mq : ModuleQuiz) : Bool :=
  1 ≤ mq.moduleOrder && mq.moduleOrder ≤ 5 &&
  5 ≤ mq.questions.length && mq.questions.length ≤ 15 &&
  mq.questions.all validQuizQuestion

/-- Modelled from the spec: the provider contract (spec §6) — each provider
call "must validate its result against the structural constraints above
before accepting it; invalid shape is treated identically to a provider
failure", and the video search returns `0..maxResults` resources. An oracle
is valid when every successful call satisfies its output schema. -/
def Oracle.Valid (o : Oracle) : Prop :=
  (∀ k inp sk, o.llmSkeleton k inp = Except.ok sk → validSkeleton sk = true) ∧
  (∀ inp sk, o.mockSkeleton inp = Except.ok sk → validSkeleton sk = true) ∧
  (∀ inp ls, o.llmLessons inp = Except.ok ls → validModuleLessons ls = true) ∧
  (∀ inp mq, o.llmQuiz inp = Except.ok mq → validModuleQuiz mq = true) ∧
  (∀ q k vs, o.ytSearch q k = Except.ok vs → vs.length ≤ k)

/-- A persisted lesson row (`prisma.lesson.create`). -/
structure Lesson where
  order : Nat
  title : String
  type : LessonType
  estimatedMinutes : Nat
  content : String
  deriving DecidableEq, Repr

/-- A persisted quiz question row (`prisma.quizQuestion.create`). -/
structure StoredQuestion where
  type : QuestionType
  question : String
  options : Option (List String)
  answerKey : String
  explanation : String
  difficulty : String
  tags : List String
  order : Nat
  deriving DecidableEq, Repr

/-- A persisted quiz row (`prisma.quiz.create`) with its question rows. -/
structure StoredQuiz where
  totalQuestions : Nat
  questions : List StoredQuestion
  deriving DecidableEq, Repr

/-- A persisted resource row (`prisma.resource.create`). -/
structure Resource where
  provider : String
  title : String
  url : String
  channel : Option String
  durationSeconds : Option Nat
  thumbnailUrl : Option String
  reason : Option String
  order : Nat
  deriving DecidableEq, Repr

/-- One module of the course artifact as persisted: the module row together
with its child lesson, quiz and resource rows. -/
structure BuiltModule where
  data : ModuleData
  lessons : List Lesson
  quizzes : List StoredQuiz
  resources : List Resource
  deriving DecidableEq, Repr

/-- The course artifact after the pipeline ran: module tree plus the course
`status` column (stage 5 sets it to `"active"`). -/
structure BuiltCourse where
  modules : List BuiltModule
  status : String
  deriving DecidableEq, Repr

/-- The course row the job points at (`job.course`), as read by
`executeGenerateCourse`. -/
structure CourseRow where
  id : String
  topic : String
  level : String
  timePerDay : Nat
  deriving DecidableEq, Repr

/-- The job row: identity, status string, progress, stage label and error
columns, as in the Prisma `Job` model (timestamps are not modelled). -/
structure JobRow where
  id : String
  jtype : String
  status : String
  progressPercent : Nat
  currentStage : String
  errorCode : Option String
  errorMessage : Option String
  deriving DecidableEq, Repr

/-- A `JobEvent` row as written by `logEvent` (the opaque JSON `data`
payload is not modelled). -/
structure JEvent where
  stage : String
  level : Severity
  message : String
  deriving DecidableEq, Repr

/-- Mutable state threaded through one job execution: the current job row,
the list of job-row states successively written by `prisma.job.update`, the
append-only event log, and the inputs of the skeleton calls made so far
(configured provider, then mock provider). -/
structure RunState where
  job : JobRow
  writes : List JobRow
  events : List JEvent
  skelCalls : List SkelInput
  mockCalls : List SkelInput
  deriving Repr

/-- The job row after a progress write: only `progressPercent` and
`currentStage` change. -/
def progressRow (j : JobRow) (percent : Nat) (stage : String) : JobRow :=
  { j with progressPercent := percent, currentStage := stage }

/-- Helper `updateProgress`: writes `progressPercent` and `currentStage` on the job
row (`job-runner.ts` lines 397–406). -/
def RunState.updateProgress (s : RunState) (percent : Nat) (stage : String) : RunState :=
  { s with
    job := progressRow s.job percent stage
    writes := s.writes ++ [progressRow s.job percent stage] }

/-- Helper `logEvent`: appends a `JobEvent` row (`job-runner.ts` lines 408–418). -/
def RunState.logEvent (s : RunState) (stage : String) (level : Severity)
    (message : String) : RunState :=
  { s with events := s.events ++ [⟨stage, level, message⟩] }

/-- Record a call to the configured LLM provider's `generateCourseSkeleton`. -/
def RunState.recordSkelCall (s : RunState) (inp : SkelInput) : RunState :=
  { s with skelCalls := s.skelCalls ++ [inp] }

/-- Record a call to the fallback provider's `generateCourseSkeleton`. -/
def RunState.recordMockCall (s : RunState) (inp : SkelInput) : RunState :=
  { s with mockCalls := s.mockCalls ++ [inp] }

/-- Embedding of `Math.floor(base + ((i + 1) / n) * span)` — the per-module progress
interpolation of stages 2–4 (source lines 191, 253, 337).  Written with
natural division; `modulePct_eq_floor` below proves it equal to the exact
rational floor of the source expression.  At the only reachable module count
(`n = 5`, enforced by `CourseSkeletonSchema`) the IEEE-double evaluation of
the source agrees with the exact rational value for every `i < 5`. -/
def modulePct (base span i n : Nat) : Nat :=
  base + ((i + 1) * span) / n


/-- Embedding of the module fetch sorted by the `order` column: the saved
skeleton modules come back sorted by their `order` column. -/
def sortByOrder (ms : List ModuleData) : List ModuleData :=
  List.insertionSort (fun a b => a.order ≤ b.order) ms

/-- The skeleton input built from the course row (source lines 126–130,
143–147, 154–158: all three calls pass `course.topic`, `course.level`,
`course.timePerDay`). -/
def skelInputFor (c : CourseRow) : SkelInput :=
  ⟨c.topic, c.level, c.timePerDay⟩

/-- The `generateLessons` input for one module (source lines 196–205). -/
def lessonsInputFor (c : CourseRow) (m : ModuleData) : LessonsInput :=
  ⟨c.topic, m.order, m.title, m.description, m.outcomes, c.timePerDay⟩

/-- The `generateQuiz` input for one module (source lines 258–265). -/
def quizInputFor (c : CourseRow) (m : ModuleData) : QuizInput :=
  ⟨c.topic, m.order, m.title, m.description⟩

/-- The YouTube query for one module:
`` `${course.topic} ${module.title} tutorial` `` (source line 342). -/
def queryFor (c : CourseRow) (m : ModuleData) : String :=
  c.topic ++ " " ++ m.title ++ " tutorial"

/-- Stage 1 skeleton acquisition with its retry ladder (source lines
124–160): call the configured provider; on failure log a warn event, write
the interim 12% checkpoint and retry once with the same inputs; on a second
failure log a warn event and call the fallback provider; its error, if any,
propagates. -/
def stage1Skeleton (o : Oracle) (inp : SkelInput) (s : RunState) :
    RunState × Except JsError Skeleton :=
  let s := s.recordSkelCall inp
  match o.llmSkeleton 1 inp with
  | Except.ok sk =>
      (s.logEvent "Stage 1" Severity.info "Course skeleton generated", Except.ok sk)
  | Except.error _ =>
      let s := s.logEvent "Stage 1" Severity.warn "LLM failed, attempting repair"
      let s := s.updateProgress 12 "Stage 1: Retrying with repair"
      let s := s.recordSkelCall inp
      match o.llmSkeleton 2 inp with
      | Except.ok sk =>
          (s.logEvent "Stage 1" Severity.info "Repair succeeded", Except.ok sk)
      | Except.error _ =>
          let s := s.logEvent "Stage 1" Severity.warn "Using fallback generator"
          let s := s.recordMockCall inp
          (s, o.mockSkeleton inp)

/-- Store one provider lesson step (`prisma.lesson.create`, source lines
207–218; `content: lesson.content || ''`). -/
def storeLesson (st : LessonStep) : Lesson :=
  { order := st.order, title := st.title, type := st.type,
    estimatedMinutes := st.estimatedMinutes,
    content := match st.content with
      | some str => str
      | none => "" }

/-- The four fallback lessons synthesized for a module whose lesson
generation failed (source lines 229–239): order `j = 1..4`, title
`` `${module.title} - Part ${j}` ``, type `apply` for `j = 4` and otherwise
alternating `practice` (even `j`) / `learn` (odd `j`), estimated minutes
`Math.floor(course.timePerDay / 4)`. -/
def fallbackLessons (title : String) (timePerDay : Nat) : List Lesson :=
  [1, 2, 3, 4].map fun j =>
    { order := j,
      title := title ++ " - Part " ++ toString j,
      type := if j = 4 then LessonType.apply
              else if j % 2 = 0 then LessonType.practice else LessonType.learn,
      estimatedMinutes := timePerDay / 4,
      content := "" }

/-- Stage 2 body for one module (source lines 189–241): write the
interpolated progress, call `generateLessons`, store its steps on success
or log a warn event and store the four fallback lessons on failure. -/
def stage2Module (o : Oracle) (c : CourseRow) (n i : Nat) (m : ModuleData)
    (s : RunState) : RunState × List Lesson :=
  let s := s.updateProgress (modulePct 25 15 i n)
    ("Stage 2: Module " ++ toString m.order ++ " lessons")
  match o.llmLessons (lessonsInputFor c m) with
  | Except.ok ls =>
      let s := s.logEvent "Stage 2" Severity.info
        ("Module " ++ toString m.order ++ " lessons created")
      (s, ls.steps.map storeLesson)
  | Except.error _ =>
      let s := s.logEvent "Stage 2" Severity.warn
        ("Module " ++ toString m.order ++ " lessons failed, using fallback")
      (s, fallbackLessons m.title c.timePerDay)

/-- The stage 2 loop (`for (let i = 0; i < modules.length; i++)`), producing
one `BuiltModule` per module with its lessons (quiz and resources are added
by the later stages). -/
def stage2Go (o : Oracle) (c : CourseRow) (n : Nat) :
    Nat → List ModuleData → RunState → RunState × List BuiltModule
  | _, [], s => (s, [])
  | i, m :: rest, s =>
      let r := stage2Module o c n i m s
      let r2 := stage2Go o c n (i + 1) rest r.1
      (r2.1, { data := m, lessons := r.2, quizzes := [], resources := [] } :: r2.2)

/-- The fallback quiz synthesized for a module whose quiz generation failed
(source lines 301–323): a quiz row with `totalQuestions: 3` and three `mcq`
questions with four fixed placeholder options and answer `"Option A"`. -/
def fallbackQuiz (title : String) : StoredQuiz :=
  { totalQuestions := 3,
    questions := [1, 2, 3].map fun j =>
      { type := QuestionType.mcq,
        question := "Question " ++ toString j ++ " about " ++ title ++ "?",
        options := some ["Option A", "Option B", "Option C", "Option D"],
        answerKey := "Option A",
        explanation := "Explanation for this question.",
        difficulty := "medium",
        tags := [],
        order := j } }

/-- Store a provider quiz (`prisma.quiz.create` + `prisma.quizQuestion.create`,
source lines 267–291): `totalQuestions` is the question count and question
rows carry `order: j + 1`. -/
def storeQuiz (qd : ModuleQuiz) : StoredQuiz :=
  { totalQuestions := qd.questions.length,
    questions := qd.questions.enum.map fun jq =>
      { type := jq.2.type, question := jq.2.question, options := jq.2.options,
        answerKey := jq.2.answerKey, explanation := jq.2.explanation,
        difficulty := jq.2.difficulty, tags := jq.2.tags, order := jq.1 + 1 } }

/-- Stage 3 body for one module (source lines 251–325). -/
def stage3Module (o : Oracle) (c : CourseRow) (n i : Nat) (m : ModuleData)
    (s : RunState) : RunState × StoredQuiz :=
  let s := s.updateProgress (modulePct 45 25 i n)
    ("Stage 3: Module " ++ toString m.order ++ " quiz")
  match o.llmQuiz (quizInputFor c m) with
  | Except.ok qd =>
      let s := s.logEvent "Stage 3" Severity.info
        ("Module " ++ toString m.order ++ " quiz created")
      (s, storeQuiz qd)
  | Except.error _ =>
      let s := s.logEvent "Stage 3" Severity.warn
        ("Module " ++ toString m.order ++ " quiz failed, using fallback")
      (s, fallbackQuiz m.title)

/-- The stage 3 loop: attach exactly one quiz to each built module. -/
def stage3Go (o : Oracle) (c : CourseRow) (n : Nat) :
    Nat → List BuiltModule → RunState → RunState × List BuiltModule
  | _, [], s => (s, [])
  | i, bm :: rest, s =>
      let r := stage3Module o c n i bm.data s
      let r2 := stage3Go o c n (i + 1) rest r.1
      (r2.1, { bm with quizzes := [r.2] } :: r2.2)

/-- Store the found videos as resource rows (`prisma.resource.create`,
source lines 345–360): provider `"youtube"`, `order: j + 1`. -/
def storeResources (videos : List Video) : List Resource :=
  videos.enum.map fun jv =>
    { provider := "youtube", title := jv.2.title, url := jv.2.url,
      channel := jv.2.channel, durationSeconds := jv.2.durationSeconds,
      thumbnailUrl := jv.2.thumbnailUrl, reason := jv.2.reason,
      order := jv.1 + 1 }

/-- Stage 4 body for one module (source lines 335–372): search for at most 3
videos with query `` `${course.topic} ${module.title} tutorial` ``; on
failure log a warn event and append zero resources (non-fatal). -/
def stage4Module (o : Oracle) (c : CourseRow) (n i : Nat) (m : ModuleData)
    (s : RunState) : RunState × List Resource :=
  let s := s.updateProgress (modulePct 75 20 i n)
    ("Stage 4: Module " ++ toString m.order ++ " resources")
  match o.ytSearch (queryFor c m) 3 with
  | Except.ok videos =>
      let s := s.logEvent "Stage 4" Severity.info
        ("Module " ++ toString m.order ++ " resources added")
      (s, storeResources videos)
  | Except.error _ =>
      let s := s.logEvent "Stage 4" Severity.warn
        ("Module " ++ toString m.order ++ " resources failed (non-fatal)")
      (s, [])

/-- The stage 4 loop: attach the found resources to each built module. -/
def stage4Go (o : Oracle) (c : CourseRow) (n : Nat) :
    Nat → List BuiltModule → RunState → RunState × List BuiltModule
  | _, [], s => (s, [])
  | i, bm :: rest, s =>
      let r := stage4Module o c n i bm.data s
      let r2 := stage4Go o c n (i + 1) rest r.1
      (r2.1, { bm with resources := r.2 } :: r2.2)

/-- Stages 2–5 of `executeGenerateCourse` (source lines 183–391), run after
the skeleton has been saved: the three per-module loops with their boundary
progress writes and events, then stage 5 (mark the course active). -/
def runStages2to5 (o : Oracle) (c : CourseRow) (ms : List ModuleData)
    (s : RunState) : RunState × List BuiltModule :=
  let s := s.updateProgress 25 "Stage 2: Generating lessons"
  let s := s.logEvent "Stage 2" Severity.info "Starting lesson generation for all modules"
  let r2 := stage2Go o c ms.length 0 ms s
  let s := r2.1.updateProgress 40 "Stage 2: Complete"
  let s := s.updateProgress 45 "Stage 3: Generating quizzes"
  let s := s.logEvent "Stage 3" Severity.info "Starting quiz generation for all modules"
  let r3 := stage3Go o c ms.length 0 r2.2 s
  let s := r3.1.updateProgress 70 "Stage 3: Complete"
  let s := s.updateProgress 75 "Stage 4: Finding video resources"
  let s := s.logEvent "Stage 4" Severity.info "Starting YouTube resource search"
  let r4 := stage4Go o c ms.length 0 r3.2 s
  let s := r4.1.updateProgress 95 "Stage 4: Complete"
  let s := s.updateProgress 98 "Stage 5: Finalizing"
  let s := s.logEvent "Stage 5" Severity.info "Finalizing course"
  let s := s.updateProgress 100 "Stage 5: Complete"
  let s := s.logEvent "Stage 5" Severity.info "Course activated"
  (s, r4.2)

/-- Embedding of `executeGenerateCourse` (source lines 104–391): stage 1 header writes,
the skeleton retry ladder, then — when a skeleton was obtained — save the
modules, close stage 1 at 20%, fetch them sorted by `order` and run stages
2–5.  A failure of even the fallback skeleton propagates as the thrown
error; nothing later in the pipeline throws. -/
def executeGenerateCourse (o : Oracle) (c : CourseRow) (s : RunState) :
    RunState × Except JsError BuiltCourse :=
  let s := s.updateProgress 10 "Stage 1: Generating course skeleton"
  let s := s.logEvent "Stage 1" Severity.info "Starting course skeleton generation"
  match stage1Skeleton o (skelInputFor c) s with
  | (s, Except.error e) => (s, Except.error e)
  | (s, Except.ok sk) =>
      let s := s.updateProgress 20 "Stage 1: Complete"
      let r := runStages2to5 o c (sortByOrder sk.modules) s
      (r.1, Except.ok { modules := r.2, status := "active" })

/-- JavaScript `x || dflt` on an optional string property: `undefined` and
the empty string are both falsy. -/
def jsOr (s : Option String) (dflt : String) : String :=
  match s with
  | some v => if v = "" then dflt else v
  | none => dflt

/-- The terminal update of a failed job (source lines 83–91): the `data`
object names only `status`, `errorCode`, `errorMessage` and `updatedAt`, so
every other column — in particular `progressPercent` and `currentStage` —
keeps its previous value. -/
def failedUpdate (j : JobRow) (code msg : String) : JobRow :=
  { j with status := "failed", errorCode := some code, errorMessage := some msg }

/-- The terminal update of a succeeded job (source lines 66–74): status
`succeeded`, progress 100, stage `"Completed"`. -/
def succeededUpdate (j : JobRow) : JobRow :=
  { j with status := "succeeded", progressPercent := 100, currentStage := "Completed" }

/-- The claim update (source lines 51–58): status `running`, stage
`"Starting"`, progress 0. -/
def claimedRow (j : JobRow) : JobRow :=
  { j with status := "running", currentStage := "Starting", progressPercent := 0 }

/-- The run state right after a queued job was claimed: the claimed row has
been written once, and the logs are empty. -/
def initRun (j : JobRow) : RunState :=
  ⟨claimedRow j, [claimedRow j], [], [], []⟩

/-- The result of one `processNextJob` dispatch: the final job row, the
successive job-row states written, the event log, the skeleton-call log and
the course artifact (present iff the pipeline completed). -/
structure DispatchResult where
  job : JobRow
  writes : List JobRow
  events : List JEvent
  skelCalls : List SkelInput
  mockCalls : List SkelInput
  course : Option BuiltCourse
  deriving Repr

/-- Embedding of `processNextJob` (source lines 39–98) acting on one job row: a job is
picked only while `queued`; it is claimed (status `running`, stage
`"Starting"`, progress 0), the pipeline runs for `GENERATE_COURSE` jobs, and
the job is marked `succeeded` (progress 100, stage `"Completed"`) or
`failed` (`errorCode = error.code || JOB_RUNNER_FAILURE`,
`errorMessage = error.message || "Unknown error"`).  A job whose status is
not `queued` is never selected by `findFirst` and is left untouched. -/
def processNextJob (o : Oracle) (c : CourseRow) (j : JobRow) : DispatchResult :=
  if j.status = "queued" then
    let s0 : RunState := initRun j
    let run : RunState × Except JsError (Option BuiltCourse) :=
      if j.jtype = "GENERATE_COURSE" then
        match executeGenerateCourse o c s0 with
        | (s, Except.ok bc) => (s, Except.ok (some bc))
        | (s, Except.error e) => (s, Except.error e)
      else (s0, Except.ok none)
    match run with
    | (s, Except.ok bc) =>
        let j2 : JobRow := succeededUpdate s.job
        let s := { s with job := j2, writes := s.writes ++ [j2] }
        let s := s.logEvent "Completed" Severity.info "Job completed successfully"
        ⟨s.job, s.writes, s.events, s.skelCalls, s.mockCalls, bc⟩
    | (s, Except.error e) =>
        let j2 := failedUpdate s.job (jsOr e.code "JOB_RUNNER_FAILURE")
          (jsOr (some e.message) "Unknown error")
        let s := { s with job := j2, writes := s.writes ++ [j2] }
        let s := s.logEvent "Failed" Severity.error (jsOr (some e.message) "Unknown error")
        ⟨s.job, s.writes, s.events, s.skelCalls, s.mockCalls, none⟩
  else ⟨j, [], [], [], [], none⟩

/-- A status is terminal when it is `succeeded` or `failed`. -/
def isTerminal (status : String) : Bool :=
  status = "succeeded" || status = "failed"

/-- Modelled from the spec: the Job Store operation `markSucceeded(jobId)`
(spec §4.2) is not a standalone function under `src/` (the dispatcher
inlines its terminal update, source lines 66–74); per the spec it is a
"terminal transition; idempotent no-op if already terminal". -/
def markSucceeded (j : JobRow) : JobRow :=
  if isTerminal j.status then j
  else { j with status := "succeeded", progressPercent := 100, currentStage := "Completed" }

/-- Modelled from the spec: the Job Store operation
`markFailed(jobId, errorKind, message)` (spec §4.2) is not a standalone
function under `src/` (the dispatcher inlines its terminal update, source
lines 83–91); per the spec it is a "terminal transition; idempotent no-op
if already terminal". -/
def markFailed (j : JobRow) (code msg : String) : JobRow :=
  if isTerminal j.status then j else failedUpdate j code msg

/-- Recognizer for a legal sequence of status writes of one dispatched job:
one or more `running` writes followed by exactly one terminal write, i.e.
the job moves `queued → running → {succeeded, failed}` and nothing is
written after the terminal state. -/
def runningThenTerminal : List String → Bool
  | [] => false
  | [t] => isTerminal t
  | st :: rest => st = "running" && runningThenTerminal rest

/-- Modelled from the spec: the submission route (idempotency-key handling,
spec §4.1 and §6) is not under `src/` — only the orchestrator is.  State of
the idempotency registry and of the created artifacts: key → job-id
mappings, the created job ids and course ids, and a fresh-id counter. -/
structure SubmissionState where
  registry : List (String × Nat)
  jobs : List Nat
  courses : List Nat
  nextId : Nat
  deriving DecidableEq, Repr

/-- Modelled from the spec: one valid submission (spec §6, "reserve
idempotency key; if new, create Course (draft) + Job (queued) and return
jobId; if existing, return the existing jobId plus an indicator that it
already existed").  Returns the new state, the job id, and whether the key
already existed. -/
def submitGenerate (st : SubmissionState) (key : String) :
    SubmissionState × Nat × Bool :=
  match st.registry.lookup key with
  | some jid => (st, jid, true)
  | none =>
      let cid := st.nextId
      let jid := st.nextId + 1
      (⟨st.registry ++ [(key, jid)], st.jobs ++ [jid], st.courses ++ [cid],
        st.nextId + 2⟩, jid, false)

/-- The lessons finally stored for a module, as a function of the oracle:
the stored provider steps on success, the four fallback lessons on failure
(source lines 195–240). -/
def storedLessonsFor (o : Oracle) (c : CourseRow) (m : ModuleData) : List Lesson :=
  match o.llmLessons (lessonsInputFor c m) with
  | Except.ok ls => ls.steps.map storeLesson
  | Except.error _ => fallbackLessons m.title c.timePerDay

/-- The quiz finally stored for a module: the stored provider quiz on
success, the three-question fallback quiz on failure (source lines
257–324). -/
def storedQuizFor (o : Oracle) (c : CourseRow) (m : ModuleData) : StoredQuiz :=
  match o.llmQuiz (quizInputFor c m) with
  | Except.ok qd => storeQuiz qd
  | Except.error _ => fallbackQuiz m.title

/-- The resources finally stored for a module: the found videos on success,
none on failure (source lines 341–371). -/
def storedResourcesFor (o : Oracle) (c : CourseRow) (m : ModuleData) : List Resource :=
  match o.ytSearch (queryFor c m) 3 with
  | Except.ok videos => storeResources videos
  | Except.error _ => []

/-- The full module tree the pipeline persists for a saved module list. -/
def courseModules (o : Oracle) (c : CourseRow) (ms : List ModuleData) :
    List BuiltModule :=
  ms.map fun m =>
    { data := m, lessons := storedLessonsFor o c m,
      quizzes := [storedQuizFor o c m], resources := storedResourcesFor o c m }

/-- The skeleton the retry ladder of stage 1 resolves to: first attempt,
else second attempt, else the fallback provider's result. -/
def skeletonResult (o : Oracle) (inp : SkelInput) : Except JsError Skeleton :=
  match o.llmSkeleton 1 inp with
  | Except.ok sk => Except.ok sk
  | Except.error _ =>
      match o.llmSkeleton 2 inp with
      | Except.ok sk => Except.ok sk
      | Except.error _ => o.mockSkeleton inp

/-- The per-module progress percents a stage loop writes for `count` more
modules out of `n`, starting at index `i`. -/
def rangeMap (base span i n count : Nat) : List Nat :=
  (List.range count).map fun k => modulePct base span (i + k) n

/-- The stage-4 per-module warn event for a module with order `ord`. -/
def stage4WarnEvent (ord : Nat) : JEvent :=
  ⟨"Stage 4", Severity.warn, "Module " ++ toString ord ++ " resources failed (non-fatal)"⟩

/-- Recognizer for warn-level stage-4 events. -/
def isStage4Warn (ev : JEvent) : Bool :=
  decide (ev.stage = "Stage 4" ∧ ev.level = Severity.warn)

/-- Relation: `s2` extends the writes of `s1` only with rows carrying `s1`'s current
status, and keeps that status on the in-memory job row. -/
def StatusExtend (s1 s2 : RunState) : Prop :=
  ∃ t, s2.writes = s1.writes ++ t ∧ (∀ w ∈ t, w.status = s1.job.status) ∧
    s2.job.status = s1.job.status

/-- Relation: `s2`'s event log extends `s1`'s (the log is append-only). -/
def EventsExtend (s1 s2 : RunState) : Prop :=
  ∃ evs, s2.events = s1.events ++ evs

/-- The progress percents written by stages 2–5 for `n` modules: the stage
boundary writes and the three interpolated per-module ramps. -/
def stagesPcts (n : Nat) : List Nat :=
  [25] ++ rangeMap 25 15 0 n n ++ [40, 45] ++ rangeMap 45 25 0 n n
    ++ [70, 75] ++ rangeMap 75 20 0 n n ++ [95, 98, 100]

/-- The stage-1 progress writes: 10 at start, the 12 checkpoint when the
retry happened, 20 on completion. -/
def stage1Seg (retried : Bool) : List Nat :=
  if retried then [10, 12, 20] else [10, 20]

/-- The stage-2 progress writes for 5 modules: header 25, interpolated
per-module values, completion 40. -/
def stage2Seg : List Nat := [25, 28, 31, 34, 37, 40, 40]

/-- The stage-3 progress writes for 5 modules. -/
def stage3Seg : List Nat := [45, 50, 55, 60, 65, 70, 70]

/-- The stage-4 progress writes for 5 modules. -/
def stage4Seg : List Nat := [75, 79, 83, 87, 91, 95, 95]

/-- The stage-5 progress writes. -/
def stage5Seg : List Nat := [98, 100]

/-- Boolean checker for a non-decreasing list of percents. -/
def nonDecreasingB : List Nat → Bool
  | [] => true
  | [_] => true
  | a :: b :: rest => decide (a ≤ b) && nonDecreasingB (b :: rest)

/-!  ### Concrete data for witnesses and counterexamples  -/

/-- A schema-valid demo module with the given order. -/
def demoModule (k : Nat) : ModuleData :=
  { order := k, title := "Module number " ++ toString k,
    description := "A demo module description.",
    outcomes := ["outcome one", "outcome two"] }

/-- A schema-valid demo skeleton with exactly 5 modules. -/
def demoSkeleton : Skeleton :=
  { topic := "Docker", level := "beginner", modules := [1, 2, 3, 4, 5].map demoModule }

/-- Three schema-valid demo lesson steps. -/
def demoSteps : List LessonStep :=
  [1, 2, 3].map fun k =>
    { order := k, title := "Lesson number " ++ toString k, type := LessonType.learn,
      estimatedMinutes := 10, content := none }

/-- A schema-valid short-answer demo question. -/
def demoQuestion : QuizQuestion :=
  { type := QuestionType.short, question := "What is containerization?",
    options := none, answerKey := "isolation",
    explanation := "Containers isolate processes.", difficulty := "medium", tags := [] }

/-- A schema-valid demo quiz with 5 questions. -/
def demoQuiz : ModuleQuiz :=
  { moduleOrder := 1, questions := [1, 2, 3, 4, 5].map fun _ => demoQuestion }

/-- Two demo videos. -/
def demoVideos : List Video :=
  [{ title := "Intro video", url := "https://example.com/v1", channel := some "Chan",
     durationSeconds := some 300, thumbnailUrl := none, reason := none },
   { title := "Deep dive", url := "https://example.com/v2", channel := none,
     durationSeconds := none, thumbnailUrl := none, reason := none }]

/-- A demo provider error. -/
def demoErr : JsError := { code := none, message := "provider unavailable" }

/-- An oracle on which every provider call succeeds with schema-valid
output. -/
def okOracle : Oracle :=
  { llmSkeleton := fun _ _ => Except.ok demoSkeleton,
    mockSkeleton := fun _ => Except.ok demoSkeleton,
    llmLessons := fun _ => Except.ok { moduleOrder := 1, steps := demoSteps },
    llmQuiz := fun _ => Except.ok demoQuiz,
    ytSearch := fun _ maxResults => Except.ok (demoVideos.take maxResults) }

/-- An oracle on which every video search fails and everything else
succeeds. -/
def noVideoOracle : Oracle :=
  { okOracle with ytSearch := fun _ _ => Except.error demoErr }

/-- An oracle on which both configured skeleton attempts fail and the
fallback provider succeeds. -/
def skelFailOracle : Oracle :=
  { okOracle with llmSkeleton := fun _ _ => Except.error demoErr }

/-- An oracle on which even the fallback skeleton provider fails. -/
def allFailOracle : Oracle :=
  { okOracle with
    llmSkeleton := fun _ _ => Except.error demoErr
    mockSkeleton := fun _ => Except.error demoErr }

/-- An oracle on which every quiz generation fails and everything else
succeeds. -/
def quizFailOracle : Oracle :=
  { okOracle with llmQuiz := fun _ => Except.error demoErr }

/-- An oracle on which every lesson generation fails and everything else
succeeds. -/
def lessonsFailOracle : Oracle :=
  { okOracle with llmLessons := fun _ => Except.error demoErr }

/-- A demo course row. -/
def demoCourse : CourseRow :=
  { id := "course-1", topic := "Docker", level := "beginner", timePerDay := 30 }

/-- A queued demo `GENERATE_COURSE` job row. -/
def demoJob : JobRow :=
  { id := "job-1", jtype := "GENERATE_COURSE", status := "queued", progressPercent := 0,
    currentStage := "", errorCode := none, errorMessage := none }

/-- A demo job row already in a terminal state. -/
def doneJob : JobRow :=
  { id := "job-2", jtype := "GENERATE_COURSE", status := "succeeded", progressPercent := 100,
    currentStage := "Completed", errorCode := none, errorMessage := none }

/-!  ### Projection lemmas for the stage loops  -/

/-- Lemma: `modulePct` equals the floor of the exact rational reading of
`base + ((i + 1) / n) * span`, for every `n` (at `n = 0`, both conventions
agree on `base`, and the loop never runs for an empty module list anyway). -/
theorem modulePct_eq_floor (b sp i n : ℕ) :
    modulePct b sp i n = (⌊((b : ℚ) + (((i : ℚ) + 1) / (n : ℚ)) * sp)⌋).toNat := by
  rw [show ((b : ℚ) + (((i : ℚ) + 1) / (n : ℚ)) * sp)
        = (((b : ℤ) : ℚ)) + ((((i + 1) * sp : ℕ) : ℤ) : ℚ) / (((n : ℤ)) : ℚ) by
      push_cast; ring]
  rw [Int.floor_int_add]
  rw [show (((n : ℤ)) : ℚ) = ((n : ℕ) : ℚ) by push_cast; ring]
  rw [Rat.floor_intCast_div_natCast]
  rw [modulePct]
  rw [Int.toNat_add (by positivity) (Int.ediv_nonneg (by positivity) (by positivity))]
  rw [show (((i + 1) * sp : ℕ) : ℤ) / ((n : ℕ) : ℤ) = (((i + 1) * sp / n : ℕ) : ℤ) from
    (Int.natCast_div _ _).symm]
  rw [Int.toNat_natCast, Int.toNat_natCast]


theorem progressRow_progressRow (j : JobRow) (p p2 : Nat) (l l2 : String) :
    progressRow (progressRow j p l) p2 l2 = progressRow j p2 l2 := rfl

theorem progressRow_status (j : JobRow) (p : Nat) (l : String) :
    (progressRow j p l).status = j.status := rfl

theorem stage2Module_pcts (o : Oracle) (c : CourseRow) (n i : Nat) (m : ModuleData)
    (s : RunState) :
    ((stage2Module o c n i m s).1).writes.map (fun w => w.progressPercent)
      = s.writes.map (fun w => w.progressPercent) ++ [modulePct 25 15 i n] := by
  cases h : o.llmLessons (lessonsInputFor c m) <;>
    simp [stage2Module, RunState.updateProgress, RunState.logEvent, h, progressRow]

theorem stage2Module_job (o : Oracle) (c : CourseRow) (n i : Nat) (m : ModuleData)
    (s : RunState) :
    ((stage2Module o c n i m s).1).job
      = progressRow s.job (modulePct 25 15 i n)
          ("Stage 2: Module " ++ toString m.order ++ " lessons") := by
  cases h : o.llmLessons (lessonsInputFor c m) <;>
    simp [stage2Module, RunState.updateProgress, RunState.logEvent, h]

theorem stage2Module_writes (o : Oracle) (c : CourseRow) (n i : Nat) (m : ModuleData)
    (s : RunState) :
    ((stage2Module o c n i m s).1).writes
      = s.writes ++ [progressRow s.job (modulePct 25 15 i n)
          ("Stage 2: Module " ++ toString m.order ++ " lessons")] := by
  cases h : o.llmLessons (lessonsInputFor c m) <;>
    simp [stage2Module, RunState.updateProgress, RunState.logEvent, h]

theorem stage2Module_events (o : Oracle) (c : CourseRow) (n i : Nat) (m : ModuleData)
    (s : RunState) :
    ∃ ev : JEvent, ev.stage = "Stage 2" ∧
      ((stage2Module o c n i m s).1).events = s.events ++ [ev] := by
  cases h : o.llmLessons (lessonsInputFor c m) <;>
    simp [stage2Module, RunState.updateProgress, RunState.logEvent, h]

theorem stage2Module_calls (o : Oracle) (c : CourseRow) (n i : Nat) (m : ModuleData)
    (s : RunState) :
    ((stage2Module o c n i m s).1).skelCalls = s.skelCalls ∧
      ((stage2Module o c n i m s).1).mockCalls = s.mockCalls := by
  cases h : o.llmLessons (lessonsInputFor c m) <;>
    simp [stage2Module, RunState.updateProgress, RunState.logEvent, h]

theorem stage2Module_content (o : Oracle) (c : CourseRow) (n i : Nat) (m : ModuleData)
    (s : RunState) :
    (stage2Module o c n i m s).2 = storedLessonsFor o c m := by
  cases h : o.llmLessons (lessonsInputFor c m) <;>
    simp [stage2Module, storedLessonsFor, RunState.updateProgress, RunState.logEvent, h]

theorem stage3Module_pcts (o : Oracle) (c : CourseRow) (n i : Nat) (m : ModuleData)
    (s : RunState) :
    ((stage3Module o c n i m s).1).writes.map (fun w => w.progressPercent)
      = s.writes.map (fun w => w.progressPercent) ++ [modulePct 45 25 i n] := by
  cases h : o.llmQuiz (quizInputFor c m) <;>
    simp [stage3Module, RunState.updateProgress, RunState.logEvent, h, progressRow]

theorem stage3Module_job (o : Oracle) (c : CourseRow) (n i : Nat) (m : ModuleData)
    (s : RunState) :
    ((stage3Module o c n i m s).1).job
      = progressRow s.job (modulePct 45 25 i n)
          ("Stage 3: Module " ++ toString m.order ++ " quiz") := by
  cases h : o.llmQuiz (quizInputFor c m) <;>
    simp [stage3Module, RunState.updateProgress, RunState.logEvent, h]

theorem stage3Module_writes (o : Oracle) (c : CourseRow) (n i : Nat) (m : ModuleData)
    (s : RunState) :
    ((stage3Module o c n i m s).1).writes
      = s.writes ++ [progressRow s.job (modulePct 45 25 i n)
          ("Stage 3: Module " ++ toString m.order ++ " quiz")] := by
  cases h : o.llmQuiz (quizInputFor c m) <;>
    simp [stage3Module, RunState.updateProgress, RunState.logEvent, h]

theorem stage3Module_events (o : Oracle) (c : CourseRow) (n i : Nat) (m : ModuleData)
    (s : RunState) :
    ∃ ev : JEvent, ev.stage = "Stage 3" ∧
      ((stage3Module o c n i m s).1).events = s.events ++ [ev] := by
  cases h : o.llmQuiz (quizInputFor c m) <;>
    simp [stage3Module, RunState.updateProgress, RunState.logEvent, h]

theorem stage3Module_calls (o : Oracle) (c : CourseRow) (n i : Nat) (m : ModuleData)
    (s : RunState) :
    ((stage3Module o c n i m s).1).skelCalls = s.skelCalls ∧
      ((stage3Module o c n i m s).1).mockCalls = s.mockCalls := by
  cases h : o.llmQuiz (quizInputFor c m) <;>
    simp [stage3Module, RunState.updateProgress, RunState.logEvent, h]

theorem stage3Module_content (o : Oracle) (c : CourseRow) (n i : Nat) (m : ModuleData)
    (s : RunState) :
    (stage3Module o c n i m s).2 = storedQuizFor o c m := by
  cases h : o.llmQuiz (quizInputFor c m) <;>
    simp [stage3Module, storedQuizFor, RunState.updateProgress, RunState.logEvent, h]

theorem stage4Module_pcts (o : Oracle) (c : CourseRow) (n i : Nat) (m : ModuleData)
    (s : RunState) :
    ((stage4Module o c n i m s).1).writes.map (fun w => w.progressPercent)
      = s.writes.map (fun w => w.progressPercent) ++ [modulePct 75 20 i n] := by
  cases h : o.ytSearch (queryFor c m) 3 <;>
    simp [stage4Module, RunState.updateProgress, RunState.logEvent, h, progressRow]

theorem stage4Module_job (o : Oracle) (c : CourseRow) (n i : Nat) (m : ModuleData)
    (s : RunState) :
    ((stage4Module o c n i m s).1).job
      = progressRow s.job (modulePct 75 20 i n)
          ("Stage 4: Module " ++ toString m.order ++ " resources") := by
  cases h : o.ytSearch (queryFor c m) 3 <;>
    simp [stage4Module, RunState.updateProgress, RunState.logEvent, h]

theorem stage4Module_writes (o : Oracle) (c : CourseRow) (n i : Nat) (m : ModuleData)
    (s : RunState) :
    ((stage4Module o c n i m s).1).writes
      = s.writes ++ [progressRow s.job (modulePct 75 20 i n)
          ("Stage 4: Module " ++ toString m.order ++ " resources")] := by
  cases h : o.ytSearch (queryFor c m) 3 <;>
    simp [stage4Module, RunState.updateProgress, RunState.logEvent, h]

theorem stage4Module_events (o : Oracle) (c : CourseRow) (n i : Nat) (m : ModuleData)
    (s : RunState) :
    ∃ ev : JEvent, ev.stage = "Stage 4" ∧
      ((stage4Module o c n i m s).1).events = s.events ++ [ev] := by
  cases h : o.ytSearch (queryFor c m) 3 <;>
    simp [stage4Module, RunState.updateProgress, RunState.logEvent, h]

theorem stage4Module_calls (o : Oracle) (c : CourseRow) (n i : Nat) (m : ModuleData)
    (s : RunState) :
    ((stage4Module o c n i m s).1).skelCalls = s.skelCalls ∧
      ((stage4Module o c n i m s).1).mockCalls = s.mockCalls := by
  cases h : o.ytSearch (queryFor c m) 3 <;>
    simp [stage4Module, RunState.updateProgress, RunState.logEvent, h]

theorem stage4Module_content (o : Oracle) (c : CourseRow) (n i : Nat) (m : ModuleData)
    (s : RunState) :
    (stage4Module o c n i m s).2 = storedResourcesFor o c m := by
  cases h : o.ytSearch (queryFor c m) 3 <;>
    simp [stage4Module, storedResourcesFor, RunState.updateProgress, RunState.logEvent, h]

/-- On a video-search failure the stage-4 body appends exactly the warn
event for that module and stores no resources. -/
theorem stage4Module_fail (o : Oracle) (c : CourseRow) (n i : Nat) (m : ModuleData)
    (s : RunState) (e : JsError) (h : o.ytSearch (queryFor c m) 3 = Except.error e) :
    ((stage4Module o c n i m s).1).events
        = s.events ++ [⟨"Stage 4", Severity.warn,
            "Module " ++ toString m.order ++ " resources failed (non-fatal)"⟩] ∧
      (stage4Module o c n i m s).2 = [] := by
  simp [stage4Module, RunState.updateProgress, RunState.logEvent, h]

/-!  ### Fold lemmas for the stage loops  -/

theorem rangeMap_succ (b sp i n count : Nat) :
    rangeMap b sp i n (count + 1)
      = modulePct b sp i n :: rangeMap b sp (i + 1) n count := by
  unfold rangeMap
  rw [List.range_succ_eq_map, List.map_cons, List.map_map]
  have hc : (fun k => modulePct b sp (i + k) n) ∘ Nat.succ
      = fun k => modulePct b sp (i + 1 + k) n := by
    funext k
    simp only [Function.comp]
    congr 1
    omega
  rw [hc]
  norm_num

theorem stage2Go_pcts (o : Oracle) (c : CourseRow) (n : Nat) :
    ∀ (ms : List ModuleData) (i : Nat) (s : RunState),
    ((stage2Go o c n i ms s).1).writes.map (fun w => w.progressPercent)
      = s.writes.map (fun w => w.progressPercent) ++ rangeMap 25 15 i n ms.length := by
  intro ms
  induction ms with
  | nil => intro i s; simp [stage2Go, rangeMap]
  | cons m rest ih =>
      intro i s
      simp only [stage2Go, List.length_cons, rangeMap_succ]
      rw [ih, stage2Module_pcts]
      simp only [List.append_assoc, List.singleton_append]

theorem stage2Go_status (o : Oracle) (c : CourseRow) (n : Nat) :
    ∀ (ms : List ModuleData) (i : Nat) (s : RunState),
    ∃ t, ((stage2Go o c n i ms s).1).writes = s.writes ++ t ∧
      (∀ w ∈ t, w.status = s.job.status) ∧
      ((stage2Go o c n i ms s).1).job.status = s.job.status := by
  intro ms
  induction ms with
  | nil => intro i s; exact ⟨[], by simp [stage2Go]⟩
  | cons m rest ih =>
      intro i s
      simp only [stage2Go]
      obtain ⟨t, ht, hall, hjob⟩ := ih (i + 1) (stage2Module o c n i m s).1
      refine ⟨progressRow s.job (modulePct 25 15 i n)
          ("Stage 2: Module " ++ toString m.order ++ " lessons") :: t, ?_, ?_, ?_⟩
      · rw [ht, stage2Module_writes]; simp
      · intro w hw
        rcases List.mem_cons.mp hw with rfl | hw
        · exact progressRow_status _ _ _
        · rw [hall w hw, stage2Module_job]; rfl
      · rw [hjob, stage2Module_job]; rfl

theorem stage2Go_events (o : Oracle) (c : CourseRow) (n : Nat) :
    ∀ (ms : List ModuleData) (i : Nat) (s : RunState),
    ∃ evs, ((stage2Go o c n i ms s).1).events = s.events ++ evs ∧
      ∀ ev ∈ evs, ev.stage = "Stage 2" := by
  intro ms
  induction ms with
  | nil => intro i s; exact ⟨[], by simp [stage2Go]⟩
  | cons m rest ih =>
      intro i s
      simp only [stage2Go]
      obtain ⟨evs, hevs, hall⟩ := ih (i + 1) (stage2Module o c n i m s).1
      obtain ⟨ev, hst, hev⟩ := stage2Module_events o c n i m s
      refine ⟨[ev] ++ evs, ?_, ?_⟩
      · rw [hevs, hev]; simp
      · intro x hx
        rcases List.mem_append.mp hx with hx | hx
        · rcases List.mem_singleton.mp hx with rfl; exact hst
        · exact hall x hx

theorem stage2Go_calls (o : Oracle) (c : CourseRow) (n : Nat) :
    ∀ (ms : List ModuleData) (i : Nat) (s : RunState),
    ((stage2Go o c n i ms s).1).skelCalls = s.skelCalls ∧
      ((stage2Go o c n i ms s).1).mockCalls = s.mockCalls := by
  intro ms
  induction ms with
  | nil => intro i s; simp [stage2Go]
  | cons m rest ih =>
      intro i s
      simp only [stage2Go]
      obtain ⟨h1, h2⟩ := ih (i + 1) (stage2Module o c n i m s).1
      obtain ⟨h3, h4⟩ := stage2Module_calls o c n i m s
      exact ⟨h1.trans h3, h2.trans h4⟩

theorem stage2Go_content (o : Oracle) (c : CourseRow) (n : Nat) :
    ∀ (ms : List ModuleData) (i : Nat) (s : RunState),
    (stage2Go o c n i ms s).2
      = ms.map fun m =>
          { data := m, lessons := storedLessonsFor o c m, quizzes := [], resources := [] } := by
  intro ms
  induction ms with
  | nil => intro i s; simp [stage2Go]
  | cons m rest ih =>
      intro i s
      simp only [stage2Go, List.map_cons]
      rw [ih, stage2Module_content]

theorem stage3Go_pcts (o : Oracle) (c : CourseRow) (n : Nat) :
    ∀ (bms : List BuiltModule) (i : Nat) (s : RunState),
    ((stage3Go o c n i bms s).1).writes.map (fun w => w.progressPercent)
      = s.writes.map (fun w => w.progressPercent) ++ rangeMap 45 25 i n bms.length := by
  intro bms
  induction bms with
  | nil => intro i s; simp [stage3Go, rangeMap]
  | cons bm rest ih =>
      intro i s
      simp only [stage3Go, List.length_cons, rangeMap_succ]
      rw [ih, stage3Module_pcts]
      simp only [List.append_assoc, List.singleton_append]

theorem stage3Go_status (o : Oracle) (c : CourseRow) (n : Nat) :
    ∀ (bms : List BuiltModule) (i : Nat) (s : RunState),
    ∃ t, ((stage3Go o c n i bms s).1).writes = s.writes ++ t ∧
      (∀ w ∈ t, w.status = s.job.status) ∧
      ((stage3Go o c n i bms s).1).job.status = s.job.status := by
  intro bms
  induction bms with
  | nil => intro i s; exact ⟨[], by simp [stage3Go]⟩
  | cons bm rest ih =>
      intro i s
      simp only [stage3Go]
      obtain ⟨t, ht, hall, hjob⟩ := ih (i + 1) (stage3Module o c n i bm.data s).1
      refine ⟨progressRow s.job (modulePct 45 25 i n)
          ("Stage 3: Module " ++ toString bm.data.order ++ " quiz") :: t, ?_, ?_, ?_⟩
      · rw [ht, stage3Module_writes]; simp
      · intro w hw
        rcases List.mem_cons.mp hw with rfl | hw
        · exact progressRow_status _ _ _
        · rw [hall w hw, stage3Module_job]; rfl
      · rw [hjob, stage3Module_job]; rfl

theorem stage3Go_events (o : Oracle) (c : CourseRow) (n : Nat) :
    ∀ (bms : List BuiltModule) (i : Nat) (s : RunState),
    ∃ evs, ((stage3Go o c n i bms s).1).events = s.events ++ evs ∧
      ∀ ev ∈ evs, ev.stage = "Stage 3" := by
  intro bms
  induction bms with
  | nil => intro i s; exact ⟨[], by simp [stage3Go]⟩
  | cons bm rest ih =>
      intro i s
      simp only [stage3Go]
      obtain ⟨evs, hevs, hall⟩ := ih (i + 1) (stage3Module o c n i bm.data s).1
      obtain ⟨ev, hst, hev⟩ := stage3Module_events o c n i bm.data s
      refine ⟨[ev] ++ evs, ?_, ?_⟩
      · rw [hevs, hev]; simp
      · intro x hx
        rcases List.mem_append.mp hx with hx | hx
        · rcases List.mem_singleton.mp hx with rfl; exact hst
        · exact hall x hx

theorem stage3Go_calls (o : Oracle) (c : CourseRow) (n : Nat) :
    ∀ (bms : List BuiltModule) (i : Nat) (s : RunState),
    ((stage3Go o c n i bms s).1).skelCalls = s.skelCalls ∧
      ((stage3Go o c n i bms s).1).mockCalls = s.mockCalls := by
  intro bms
  induction bms with
  | nil => intro i s; simp [stage3Go]
  | cons bm rest ih =>
      intro i s
      simp only [stage3Go]
      obtain ⟨h1, h2⟩ := ih (i + 1) (stage3Module o c n i bm.data s).1
      obtain ⟨h3, h4⟩ := stage3Module_calls o c n i bm.data s
      exact ⟨h1.trans h3, h2.trans h4⟩

theorem stage3Go_content (o : Oracle) (c : CourseRow) (n : Nat) :
    ∀ (bms : List BuiltModule) (i : Nat) (s : RunState),
    (stage3Go o c n i bms s).2
      = bms.map fun bm => { bm with quizzes := [storedQuizFor o c bm.data] } := by
  intro bms
  induction bms with
  | nil => intro i s; simp [stage3Go]
  | cons bm rest ih =>
      intro i s
      simp only [stage3Go, List.map_cons]
      rw [ih, stage3Module_content]

theorem stage4Go_pcts (o : Oracle) (c : CourseRow) (n : Nat) :
    ∀ (bms : List BuiltModule) (i : Nat) (s : RunState),
    ((stage4Go o c n i bms s).1).writes.map (fun w => w.progressPercent)
      = s.writes.map (fun w => w.progressPercent) ++ rangeMap 75 20 i n bms.length := by
  intro bms
  induction bms with
  | nil => intro i s; simp [stage4Go, rangeMap]
  | cons bm rest ih =>
      intro i s
      simp only [stage4Go, List.length_cons, rangeMap_succ]
      rw [ih, stage4Module_pcts]
      simp only [List.append_assoc, List.singleton_append]

theorem stage4Go_status (o : Oracle) (c : CourseRow) (n : Nat) :
    ∀ (bms : List BuiltModule) (i : Nat) (s : RunState),
    ∃ t, ((stage4Go o c n i bms s).1).writes = s.writes ++ t ∧
      (∀ w ∈ t, w.status = s.job.status) ∧
      ((stage4Go o c n i bms s).1).job.status = s.job.status := by
  intro bms
  induction bms with
  | nil => intro i s; exact ⟨[], by simp [stage4Go]⟩
  | cons bm rest ih =>
      intro i s
      simp only [stage4Go]
      obtain ⟨t, ht, hall, hjob⟩ := ih (i + 1) (stage4Module o c n i bm.data s).1
      refine ⟨progressRow s.job (modulePct 75 20 i n)
          ("Stage 4: Module " ++ toString bm.data.order ++ " resources") :: t, ?_, ?_, ?_⟩
      · rw [ht, stage4Module_writes]; simp
      · intro w hw
        rcases List.mem_cons.mp hw with rfl | hw
        · exact progressRow_status _ _ _
        · rw [hall w hw, stage4Module_job]; rfl
      · rw [hjob, stage4Module_job]; rfl

theorem stage4Go_events (o : Oracle) (c : CourseRow) (n : Nat) :
    ∀ (bms : List BuiltModule) (i : Nat) (s : RunState),
    ∃ evs, ((stage4Go o c n i bms s).1).events = s.events ++ evs ∧
      ∀ ev ∈ evs, ev.stage = "Stage 4" := by
  intro bms
  induction bms with
  | nil => intro i s; exact ⟨[], by simp [stage4Go]⟩
  | cons bm rest ih =>
      intro i s
      simp only [stage4Go]
      obtain ⟨evs, hevs, hall⟩ := ih (i + 1) (stage4Module o c n i bm.data s).1
      obtain ⟨ev, hst, hev⟩ := stage4Module_events o c n i bm.data s
      refine ⟨[ev] ++ evs, ?_, ?_⟩
      · rw [hevs, hev]; simp
      · intro x hx
        rcases List.mem_append.mp hx with hx | hx
        · rcases List.mem_singleton.mp hx with rfl; exact hst
        · exact hall x hx

theorem stage4Go_calls (o : Oracle) (c : CourseRow) (n : Nat) :
    ∀ (bms : List BuiltModule) (i : Nat) (s : RunState),
    ((stage4Go o c n i bms s).1).skelCalls = s.skelCalls ∧
      ((stage4Go o c n i bms s).1).mockCalls = s.mockCalls := by
  intro bms
  induction bms with
  | nil => intro i s; simp [stage4Go]
  | cons bm rest ih =>
      intro i s
      simp only [stage4Go]
      obtain ⟨h1, h2⟩ := ih (i + 1) (stage4Module o c n i bm.data s).1
      obtain ⟨h3, h4⟩ := stage4Module_calls o c n i bm.data s
      exact ⟨h1.trans h3, h2.trans h4⟩

theorem stage4Go_content (o : Oracle) (c : CourseRow) (n : Nat) :
    ∀ (bms : List BuiltModule) (i : Nat) (s : RunState),
    (stage4Go o c n i bms s).2
      = bms.map fun bm => { bm with resources := storedResourcesFor o c bm.data } := by
  intro bms
  induction bms with
  | nil => intro i s; simp [stage4Go]
  | cons bm rest ih =>
      intro i s
      simp only [stage4Go, List.map_cons]
      rw [ih, stage4Module_content]


/-- When every video search fails, the stage-4 loop appends exactly one
warn event per module and stores no resources anywhere. -/
theorem stage4Go_allfail (o : Oracle) (c : CourseRow) (n : Nat)
    (hyt : ∀ q k, ∃ e, o.ytSearch q k = Except.error e) :
    ∀ (bms : List BuiltModule) (i : Nat) (s : RunState),
    ((stage4Go o c n i bms s).1).events
        = s.events ++ bms.map (fun bm => stage4WarnEvent bm.data.order) := by
  intro bms
  induction bms with
  | nil => intro i s; simp [stage4Go]
  | cons bm rest ih =>
      intro i s
      simp only [stage4Go, List.map_cons]
      rw [ih]
      obtain ⟨e, he⟩ := hyt (queryFor c bm.data) 3
      obtain ⟨hev, _⟩ := stage4Module_fail o c n i bm.data s e he
      rw [hev]
      simp [stage4WarnEvent]

/-!  ### Composition lemmas for `runStages2to5`  -/

theorem updateProgress_writes (s : RunState) (p : Nat) (l : String) :
    (s.updateProgress p l).writes = s.writes ++ [progressRow s.job p l] := rfl

theorem updateProgress_job (s : RunState) (p : Nat) (l : String) :
    (s.updateProgress p l).job = progressRow s.job p l := rfl

theorem updateProgress_events (s : RunState) (p : Nat) (l : String) :
    (s.updateProgress p l).events = s.events := rfl

theorem updateProgress_skelCalls (s : RunState) (p : Nat) (l : String) :
    (s.updateProgress p l).skelCalls = s.skelCalls := rfl

theorem updateProgress_mockCalls (s : RunState) (p : Nat) (l : String) :
    (s.updateProgress p l).mockCalls = s.mockCalls := rfl

theorem logEvent_writes (s : RunState) (st : String) (lv : Severity) (m : String) :
    (s.logEvent st lv m).writes = s.writes := rfl

theorem logEvent_job (s : RunState) (st : String) (lv : Severity) (m : String) :
    (s.logEvent st lv m).job = s.job := rfl

theorem logEvent_events (s : RunState) (st : String) (lv : Severity) (m : String) :
    (s.logEvent st lv m).events = s.events ++ [⟨st, lv, m⟩] := rfl

theorem logEvent_skelCalls (s : RunState) (st : String) (lv : Severity) (m : String) :
    (s.logEvent st lv m).skelCalls = s.skelCalls := rfl

theorem logEvent_mockCalls (s : RunState) (st : String) (lv : Severity) (m : String) :
    (s.logEvent st lv m).mockCalls = s.mockCalls := rfl

theorem progressRow_pct (j : JobRow) (p : Nat) (l : String) :
    (progressRow j p l).progressPercent = p := rfl

theorem stage2Go_length (o : Oracle) (c : CourseRow) (n i : Nat) (ms : List ModuleData)
    (s : RunState) : (stage2Go o c n i ms s).2.length = ms.length := by
  rw [stage2Go_content]; simp

theorem stage3Go_length (o : Oracle) (c : CourseRow) (n i : Nat) (bms : List BuiltModule)
    (s : RunState) : (stage3Go o c n i bms s).2.length = bms.length := by
  rw [stage3Go_content]; simp


theorem runStages_pcts (o : Oracle) (c : CourseRow) (ms : List ModuleData) (s : RunState) :
    ((runStages2to5 o c ms s).1).writes.map (fun w => w.progressPercent)
      = s.writes.map (fun w => w.progressPercent) ++ stagesPcts ms.length := by
  simp only [runStages2to5, stagesPcts, updateProgress_writes, logEvent_writes,
    List.map_append, stage2Go_pcts, stage3Go_pcts, stage4Go_pcts,
    stage2Go_length, stage3Go_length, List.map_cons, List.map_nil,
    progressRow_pct, List.append_assoc, List.cons_append, List.nil_append,
    List.singleton_append]

theorem runStages_content (o : Oracle) (c : CourseRow) (ms : List ModuleData)
    (s : RunState) :
    (runStages2to5 o c ms s).2 = courseModules o c ms := by
  simp only [runStages2to5]
  rw [stage4Go_content, stage3Go_content, stage2Go_content]
  simp only [List.map_map]
  rfl

theorem stage2Go_skelCalls (o : Oracle) (c : CourseRow) (n i : Nat)
    (ms : List ModuleData) (s : RunState) :
    ((stage2Go o c n i ms s).1).skelCalls = s.skelCalls :=
  (stage2Go_calls o c n ms i s).1

theorem stage2Go_mockCalls (o : Oracle) (c : CourseRow) (n i : Nat)
    (ms : List ModuleData) (s : RunState) :
    ((stage2Go o c n i ms s).1).mockCalls = s.mockCalls :=
  (stage2Go_calls o c n ms i s).2

theorem stage3Go_skelCalls (o : Oracle) (c : CourseRow) (n i : Nat)
    (bms : List BuiltModule) (s : RunState) :
    ((stage3Go o c n i bms s).1).skelCalls = s.skelCalls :=
  (stage3Go_calls o c n bms i s).1

theorem stage3Go_mockCalls (o : Oracle) (c : CourseRow) (n i : Nat)
    (bms : List BuiltModule) (s : RunState) :
    ((stage3Go o c n i bms s).1).mockCalls = s.mockCalls :=
  (stage3Go_calls o c n bms i s).2

theorem stage4Go_skelCalls (o : Oracle) (c : CourseRow) (n i : Nat)
    (bms : List BuiltModule) (s : RunState) :
    ((stage4Go o c n i bms s).1).skelCalls = s.skelCalls :=
  (stage4Go_calls o c n bms i s).1

theorem stage4Go_mockCalls (o : Oracle) (c : CourseRow) (n i : Nat)
    (bms : List BuiltModule) (s : RunState) :
    ((stage4Go o c n i bms s).1).mockCalls = s.mockCalls :=
  (stage4Go_calls o c n bms i s).2

theorem runStages_skelCalls (o : Oracle) (c : CourseRow) (ms : List ModuleData)
    (s : RunState) :
    ((runStages2to5 o c ms s).1).skelCalls = s.skelCalls := by
  simp only [runStages2to5, logEvent_skelCalls, updateProgress_skelCalls,
    stage2Go_skelCalls, stage3Go_skelCalls, stage4Go_skelCalls]

theorem runStages_mockCalls (o : Oracle) (c : CourseRow) (ms : List ModuleData)
    (s : RunState) :
    ((runStages2to5 o c ms s).1).mockCalls = s.mockCalls := by
  simp only [runStages2to5, logEvent_mockCalls, updateProgress_mockCalls,
    stage2Go_mockCalls, stage3Go_mockCalls, stage4Go_mockCalls]


theorem statusExtend_trans {s1 s2 s3 : RunState}
    (h12 : StatusExtend s1 s2) (h23 : StatusExtend s2 s3) : StatusExtend s1 s3 := by
  obtain ⟨t, ht, hall, hjob⟩ := h12
  obtain ⟨u, hu, hallu, hjobu⟩ := h23
  refine ⟨t ++ u, ?_, ?_, hjobu.trans hjob⟩
  · rw [hu, ht, List.append_assoc]
  · intro w hw
    rcases List.mem_append.mp hw with hw | hw
    · exact hall w hw
    · exact (hallu w hw).trans hjob

theorem updateProgress_statusExtend (s : RunState) (p : Nat) (l : String) :
    StatusExtend s (s.updateProgress p l) := by
  refine ⟨[progressRow s.job p l], rfl, ?_, rfl⟩
  intro w hw
  rcases List.mem_singleton.mp hw with rfl
  exact progressRow_status _ _ _

theorem logEvent_statusExtend (s : RunState) (st : String) (lv : Severity) (m : String) :
    StatusExtend s (s.logEvent st lv m) :=
  ⟨[], by simp [logEvent_writes], by simp, rfl⟩

theorem stage2Go_statusExtend (o : Oracle) (c : CourseRow) (n i : Nat)
    (ms : List ModuleData) (s : RunState) :
    StatusExtend s (stage2Go o c n i ms s).1 :=
  stage2Go_status o c n ms i s

theorem stage3Go_statusExtend (o : Oracle) (c : CourseRow) (n i : Nat)
    (bms : List BuiltModule) (s : RunState) :
    StatusExtend s (stage3Go o c n i bms s).1 :=
  stage3Go_status o c n bms i s

theorem stage4Go_statusExtend (o : Oracle) (c : CourseRow) (n i : Nat)
    (bms : List BuiltModule) (s : RunState) :
    StatusExtend s (stage4Go o c n i bms s).1 :=
  stage4Go_status o c n bms i s

theorem runStages_statusExtend (o : Oracle) (c : CourseRow) (ms : List ModuleData)
    (s : RunState) : StatusExtend s (runStages2to5 o c ms s).1 := by
  simp only [runStages2to5]
  refine statusExtend_trans ?_ (logEvent_statusExtend _ _ _ _)
  refine statusExtend_trans ?_ (updateProgress_statusExtend _ _ _)
  refine statusExtend_trans ?_ (logEvent_statusExtend _ _ _ _)
  refine statusExtend_trans ?_ (updateProgress_statusExtend _ _ _)
  refine statusExtend_trans ?_ (updateProgress_statusExtend _ _ _)
  refine statusExtend_trans ?_ (stage4Go_statusExtend _ _ _ _ _ _)
  refine statusExtend_trans ?_ (logEvent_statusExtend _ _ _ _)
  refine statusExtend_trans ?_ (updateProgress_statusExtend _ _ _)
  refine statusExtend_trans ?_ (updateProgress_statusExtend _ _ _)
  refine statusExtend_trans ?_ (stage3Go_statusExtend _ _ _ _ _ _)
  refine statusExtend_trans ?_ (logEvent_statusExtend _ _ _ _)
  refine statusExtend_trans ?_ (updateProgress_statusExtend _ _ _)
  refine statusExtend_trans ?_ (updateProgress_statusExtend _ _ _)
  refine statusExtend_trans ?_ (stage2Go_statusExtend _ _ _ _ _ _)
  refine statusExtend_trans ?_ (logEvent_statusExtend _ _ _ _)
  exact updateProgress_statusExtend _ _ _


theorem eventsExtend_trans {s1 s2 s3 : RunState}
    (h12 : EventsExtend s1 s2) (h23 : EventsExtend s2 s3) : EventsExtend s1 s3 := by
  obtain ⟨t, ht⟩ := h12
  obtain ⟨u, hu⟩ := h23
  exact ⟨t ++ u, by rw [hu, ht, List.append_assoc]⟩

theorem eventsExtend_mem {s1 s2 : RunState} (h : EventsExtend s1 s2)
    {ev : JEvent} (hm : ev ∈ s1.events) : ev ∈ s2.events := by
  obtain ⟨t, ht⟩ := h
  rw [ht]
  exact List.mem_append_left _ hm

theorem updateProgress_eventsExtend (s : RunState) (p : Nat) (l : String) :
    EventsExtend s (s.updateProgress p l) :=
  ⟨[], by simp [updateProgress_events]⟩

theorem logEvent_eventsExtend (s : RunState) (st : String) (lv : Severity) (m : String) :
    EventsExtend s (s.logEvent st lv m) :=
  ⟨[⟨st, lv, m⟩], rfl⟩

theorem stage2Go_eventsExtend (o : Oracle) (c : CourseRow) (n i : Nat)
    (ms : List ModuleData) (s : RunState) :
    EventsExtend s (stage2Go o c n i ms s).1 := by
  obtain ⟨evs, hevs, _⟩ := stage2Go_events o c n ms i s
  exact ⟨evs, hevs⟩

theorem stage3Go_eventsExtend (o : Oracle) (c : CourseRow) (n i : Nat)
    (bms : List BuiltModule) (s : RunState) :
    EventsExtend s (stage3Go o c n i bms s).1 := by
  obtain ⟨evs, hevs, _⟩ := stage3Go_events o c n bms i s
  exact ⟨evs, hevs⟩

theorem stage4Go_eventsExtend (o : Oracle) (c : CourseRow) (n i : Nat)
    (bms : List BuiltModule) (s : RunState) :
    EventsExtend s (stage4Go o c n i bms s).1 := by
  obtain ⟨evs, hevs, _⟩ := stage4Go_events o c n bms i s
  exact ⟨evs, hevs⟩

theorem runStages_eventsExtend (o : Oracle) (c : CourseRow) (ms : List ModuleData)
    (s : RunState) : EventsExtend s (runStages2to5 o c ms s).1 := by
  simp only [runStages2to5]
  refine eventsExtend_trans ?_ (logEvent_eventsExtend _ _ _ _)
  refine eventsExtend_trans ?_ (updateProgress_eventsExtend _ _ _)
  refine eventsExtend_trans ?_ (logEvent_eventsExtend _ _ _ _)
  refine eventsExtend_trans ?_ (updateProgress_eventsExtend _ _ _)
  refine eventsExtend_trans ?_ (updateProgress_eventsExtend _ _ _)
  refine eventsExtend_trans ?_ (stage4Go_eventsExtend _ _ _ _ _ _)
  refine eventsExtend_trans ?_ (logEvent_eventsExtend _ _ _ _)
  refine eventsExtend_trans ?_ (updateProgress_eventsExtend _ _ _)
  refine eventsExtend_trans ?_ (updateProgress_eventsExtend _ _ _)
  refine eventsExtend_trans ?_ (stage3Go_eventsExtend _ _ _ _ _ _)
  refine eventsExtend_trans ?_ (logEvent_eventsExtend _ _ _ _)
  refine eventsExtend_trans ?_ (updateProgress_eventsExtend _ _ _)
  refine eventsExtend_trans ?_ (updateProgress_eventsExtend _ _ _)
  refine eventsExtend_trans ?_ (stage2Go_eventsExtend _ _ _ _ _ _)
  refine eventsExtend_trans ?_ (logEvent_eventsExtend _ _ _ _)
  exact updateProgress_eventsExtend _ _ _

/-- The warn events of the stage-4 loop are one per module, in module order,
regardless of how stages 2 and 3 went. -/
theorem builtModules_warnMap (o : Oracle) (c : CourseRow) (n i j : Nat)
    (ms : List ModuleData) (s1 s2 : RunState) :
    ((stage3Go o c n j (stage2Go o c n i ms s1).2 s2).2).map
        (fun bm => stage4WarnEvent bm.data.order)
      = ms.map fun m => stage4WarnEvent m.order := by
  rw [stage3Go_content, stage2Go_content]
  simp only [List.map_map]
  rfl

/-- When every video search fails, stages 2–5 write exactly one stage-4 warn
event per module (and all their other events are either stage-2/stage-3
events or the fixed info events). -/
theorem runStages_events_allfail (o : Oracle) (c : CourseRow) (ms : List ModuleData)
    (s : RunState) (hyt : ∀ q k, ∃ e, o.ytSearch q k = Except.error e) :
    ∃ e2 e3, (∀ ev ∈ e2, ev.stage = "Stage 2") ∧ (∀ ev ∈ e3, ev.stage = "Stage 3") ∧
    ((runStages2to5 o c ms s).1).events
      = s.events
        ++ [⟨"Stage 2", Severity.info, "Starting lesson generation for all modules"⟩]
        ++ e2 ++ [⟨"Stage 3", Severity.info, "Starting quiz generation for all modules"⟩]
        ++ e3 ++ [⟨"Stage 4", Severity.info, "Starting YouTube resource search"⟩]
        ++ ms.map (fun m => stage4WarnEvent m.order)
        ++ [⟨"Stage 5", Severity.info, "Finalizing course"⟩,
            ⟨"Stage 5", Severity.info, "Course activated"⟩] := by
  simp only [runStages2to5]
  obtain ⟨e2, h2, h2all⟩ := stage2Go_events o c ms.length ms 0
    ((s.updateProgress 25 "Stage 2: Generating lessons").logEvent "Stage 2"
      Severity.info "Starting lesson generation for all modules")
  obtain ⟨e3, h3, h3all⟩ := stage3Go_events o c ms.length
    (stage2Go o c ms.length 0 ms
      ((s.updateProgress 25 "Stage 2: Generating lessons").logEvent "Stage 2"
        Severity.info "Starting lesson generation for all modules")).2 0
    ((((stage2Go o c ms.length 0 ms
        ((s.updateProgress 25 "Stage 2: Generating lessons").logEvent "Stage 2"
          Severity.info "Starting lesson generation for all modules")).1.updateProgress
        40 "Stage 2: Complete").updateProgress 45 "Stage 3: Generating quizzes").logEvent
      "Stage 3" Severity.info "Starting quiz generation for all modules")
  refine ⟨e2, e3, h2all, h3all, ?_⟩
  rw [logEvent_events, updateProgress_events, logEvent_events, updateProgress_events,
    updateProgress_events]
  rw [stage4Go_allfail o c ms.length hyt]
  rw [builtModules_warnMap]
  rw [logEvent_events, updateProgress_events, updateProgress_events, h3]
  rw [logEvent_events, updateProgress_events, updateProgress_events, h2]
  rw [logEvent_events, updateProgress_events]
  simp [List.append_assoc]

/-!  ### Case lemmas for the stage-1 retry ladder  -/

theorem stage1Skeleton_ok1 (o : Oracle) (inp : SkelInput) (s : RunState) (sk : Skeleton)
    (h1 : o.llmSkeleton 1 inp = Except.ok sk) :
    stage1Skeleton o inp s
      = ({ s with
            events := s.events ++ [⟨"Stage 1", Severity.info, "Course skeleton generated"⟩]
            skelCalls := s.skelCalls ++ [inp] }, Except.ok sk) := by
  simp [stage1Skeleton, RunState.recordSkelCall, RunState.logEvent, h1]

theorem stage1Skeleton_retry (o : Oracle) (inp : SkelInput) (s : RunState) (sk : Skeleton)
    (e1 : JsError) (h1 : o.llmSkeleton 1 inp = Except.error e1)
    (h2 : o.llmSkeleton 2 inp = Except.ok sk) :
    stage1Skeleton o inp s
      = ({ s with
            job := progressRow s.job 12 "Stage 1: Retrying with repair"
            writes := s.writes ++ [progressRow s.job 12 "Stage 1: Retrying with repair"]
            events := s.events ++ [⟨"Stage 1", Severity.warn, "LLM failed, attempting repair"⟩,
              ⟨"Stage 1", Severity.info, "Repair succeeded"⟩]
            skelCalls := s.skelCalls ++ [inp, inp] }, Except.ok sk) := by
  simp [stage1Skeleton, RunState.recordSkelCall, RunState.logEvent,
    RunState.updateProgress, h1, h2]

theorem stage1Skeleton_mock (o : Oracle) (inp : SkelInput) (s : RunState)
    (e1 e2 : JsError) (h1 : o.llmSkeleton 1 inp = Except.error e1)
    (h2 : o.llmSkeleton 2 inp = Except.error e2) :
    stage1Skeleton o inp s
      = ({ s with
            job := progressRow s.job 12 "Stage 1: Retrying with repair"
            writes := s.writes ++ [progressRow s.job 12 "Stage 1: Retrying with repair"]
            events := s.events ++ [⟨"Stage 1", Severity.warn, "LLM failed, attempting repair"⟩,
              ⟨"Stage 1", Severity.warn, "Using fallback generator"⟩]
            skelCalls := s.skelCalls ++ [inp, inp]
            mockCalls := s.mockCalls ++ [inp] }, o.mockSkeleton inp) := by
  simp [stage1Skeleton, RunState.recordSkelCall, RunState.recordMockCall,
    RunState.logEvent, RunState.updateProgress, h1, h2]

/-!  ### Lemmas about `executeGenerateCourse`  -/

/-- The pipeline's outcome is determined by the skeleton retry ladder: on a
resolved skeleton the course is built from its (sorted) modules and marked
active, otherwise the error propagates. -/
theorem exec_result (o : Oracle) (c : CourseRow) (s : RunState) :
    (executeGenerateCourse o c s).2
      = (skeletonResult o (skelInputFor c)).map
          (fun sk =>
            { modules := courseModules o c (sortByOrder sk.modules), status := "active" }) := by
  cases h1 : o.llmSkeleton 1 (skelInputFor c) with
  | ok sk =>
      simp only [executeGenerateCourse]
      rw [stage1Skeleton_ok1 o _ _ sk h1]
      simp only [skeletonResult, h1, Except.map]
      rw [runStages_content]
  | error e1 =>
      cases h2 : o.llmSkeleton 2 (skelInputFor c) with
      | ok sk =>
          simp only [executeGenerateCourse]
          rw [stage1Skeleton_retry o _ _ sk e1 h1 h2]
          simp only [skeletonResult, h1, h2, Except.map]
          rw [runStages_content]
      | error e2 =>
          cases h3 : o.mockSkeleton (skelInputFor c) with
          | ok sk =>
              simp only [executeGenerateCourse]
              rw [stage1Skeleton_mock o _ _ e1 e2 h1 h2, h3]
              simp only [skeletonResult, h1, h2, h3, Except.map]
              rw [runStages_content]
          | error e3 =>
              simp only [executeGenerateCourse]
              rw [stage1Skeleton_mock o _ _ e1 e2 h1 h2, h3]
              simp only [skeletonResult, h1, h2, h3, Except.map]

/-- Progress percents written by the pipeline when the first skeleton
attempt succeeds. -/
theorem exec_pcts_ok1 (o : Oracle) (c : CourseRow) (s : RunState) (sk : Skeleton)
    (h1 : o.llmSkeleton 1 (skelInputFor c) = Except.ok sk) :
    ((executeGenerateCourse o c s).1).writes.map (fun w => w.progressPercent)
      = s.writes.map (fun w => w.progressPercent)
        ++ [10, 20] ++ stagesPcts (sortByOrder sk.modules).length := by
  simp only [executeGenerateCourse]
  rw [stage1Skeleton_ok1 o _ _ sk h1]
  rw [runStages_pcts]
  simp only [updateProgress_writes, logEvent_writes, List.map_append, List.map_cons,
    List.map_nil, progressRow_pct, List.append_assoc, List.cons_append, List.nil_append]

/-- Progress percents written when the first attempt fails and the retry
succeeds: the interim 12% checkpoint appears. -/
theorem exec_pcts_retry (o : Oracle) (c : CourseRow) (s : RunState) (sk : Skeleton)
    (e1 : JsError) (h1 : o.llmSkeleton 1 (skelInputFor c) = Except.error e1)
    (h2 : o.llmSkeleton 2 (skelInputFor c) = Except.ok sk) :
    ((executeGenerateCourse o c s).1).writes.map (fun w => w.progressPercent)
      = s.writes.map (fun w => w.progressPercent)
        ++ [10, 12, 20] ++ stagesPcts (sortByOrder sk.modules).length := by
  simp only [executeGenerateCourse]
  rw [stage1Skeleton_retry o _ _ sk e1 h1 h2]
  rw [runStages_pcts]
  simp only [updateProgress_writes, logEvent_writes, List.map_append, List.map_cons,
    List.map_nil, progressRow_pct, List.append_assoc, List.cons_append, List.nil_append]

/-- Progress percents written when both provider attempts fail and the
fallback provider succeeds. -/
theorem exec_pcts_mock (o : Oracle) (c : CourseRow) (s : RunState) (sk : Skeleton)
    (e1 e2 : JsError) (h1 : o.llmSkeleton 1 (skelInputFor c) = Except.error e1)
    (h2 : o.llmSkeleton 2 (skelInputFor c) = Except.error e2)
    (h3 : o.mockSkeleton (skelInputFor c) = Except.ok sk) :
    ((executeGenerateCourse o c s).1).writes.map (fun w => w.progressPercent)
      = s.writes.map (fun w => w.progressPercent)
        ++ [10, 12, 20] ++ stagesPcts (sortByOrder sk.modules).length := by
  simp only [executeGenerateCourse]
  rw [stage1Skeleton_mock o _ _ e1 e2 h1 h2, h3]
  rw [runStages_pcts]
  simp only [updateProgress_writes, logEvent_writes, List.map_append, List.map_cons,
    List.map_nil, progressRow_pct, List.append_assoc, List.cons_append, List.nil_append]

/-- When even the fallback provider fails, the pipeline aborts after the 10%
and 12% writes, leaving the job row at the 12% retry checkpoint, and the
thrown error propagates. -/
theorem exec_fail (o : Oracle) (c : CourseRow) (s : RunState)
    (e1 e2 e3 : JsError) (h1 : o.llmSkeleton 1 (skelInputFor c) = Except.error e1)
    (h2 : o.llmSkeleton 2 (skelInputFor c) = Except.error e2)
    (h3 : o.mockSkeleton (skelInputFor c) = Except.error e3) :
    ((executeGenerateCourse o c s).1).writes.map (fun w => w.progressPercent)
        = s.writes.map (fun w => w.progressPercent) ++ [10, 12] ∧
      ((executeGenerateCourse o c s).1).job
        = progressRow s.job 12 "Stage 1: Retrying with repair" ∧
      (executeGenerateCourse o c s).2 = Except.error e3 := by
  simp only [executeGenerateCourse]
  rw [stage1Skeleton_mock o _ _ e1 e2 h1 h2, h3]
  simp [updateProgress_writes, logEvent_writes, progressRow_pct, progressRow_progressRow,
    updateProgress_job, logEvent_job]

/-- Whatever the providers do, the pipeline only appends job-row writes that
keep the claimed (`running`) status, and never touches the status column. -/
theorem exec_statusExtend (o : Oracle) (c : CourseRow) (s : RunState) :
    StatusExtend s (executeGenerateCourse o c s).1 := by
  have hpre : StatusExtend s
      ((s.updateProgress 10 "Stage 1: Generating course skeleton").logEvent "Stage 1"
        Severity.info "Starting course skeleton generation") :=
    statusExtend_trans (updateProgress_statusExtend _ _ _) (logEvent_statusExtend _ _ _ _)
  cases h1 : o.llmSkeleton 1 (skelInputFor c) with
  | ok sk =>
      simp only [executeGenerateCourse]
      rw [stage1Skeleton_ok1 o _ _ sk h1]
      refine statusExtend_trans ?_ (runStages_statusExtend _ _ _ _)
      refine statusExtend_trans ?_ (updateProgress_statusExtend _ _ _)
      exact statusExtend_trans hpre ⟨[], by simp, by simp, rfl⟩
  | error e1 =>
      cases h2 : o.llmSkeleton 2 (skelInputFor c) with
      | ok sk =>
          simp only [executeGenerateCourse]
          rw [stage1Skeleton_retry o _ _ sk e1 h1 h2]
          refine statusExtend_trans ?_ (runStages_statusExtend _ _ _ _)
          refine statusExtend_trans ?_ (updateProgress_statusExtend _ _ _)
          refine statusExtend_trans hpre ⟨[progressRow s.job 12 "Stage 1: Retrying with repair"],
            by simp [updateProgress_writes, logEvent_writes, updateProgress_job, logEvent_job, progressRow_progressRow], ?_, ?_⟩
          · intro w hw
            rcases List.mem_singleton.mp hw with rfl
            simp [progressRow_status, updateProgress_job, logEvent_job]
          · simp [progressRow_status, updateProgress_job, logEvent_job]
      | error e2 =>
          cases h3 : o.mockSkeleton (skelInputFor c) with
          | ok sk =>
              simp only [executeGenerateCourse]
              rw [stage1Skeleton_mock o _ _ e1 e2 h1 h2, h3]
              refine statusExtend_trans ?_ (runStages_statusExtend _ _ _ _)
              refine statusExtend_trans ?_ (updateProgress_statusExtend _ _ _)
              refine statusExtend_trans hpre
                ⟨[progressRow s.job 12 "Stage 1: Retrying with repair"],
                  by simp [updateProgress_writes, logEvent_writes, updateProgress_job, logEvent_job, progressRow_progressRow], ?_, ?_⟩
              · intro w hw
                rcases List.mem_singleton.mp hw with rfl
                simp [progressRow_status, updateProgress_job, logEvent_job]
              · simp [progressRow_status, updateProgress_job, logEvent_job]
          | error e3 =>
              simp only [executeGenerateCourse]
              rw [stage1Skeleton_mock o _ _ e1 e2 h1 h2, h3]
              refine statusExtend_trans hpre
                ⟨[progressRow s.job 12 "Stage 1: Retrying with repair"],
                  by simp [updateProgress_writes, logEvent_writes, updateProgress_job, logEvent_job, progressRow_progressRow], ?_, ?_⟩
              · intro w hw
                rcases List.mem_singleton.mp hw with rfl
                simp [progressRow_status, updateProgress_job, logEvent_job]
              · simp [progressRow_status, updateProgress_job, logEvent_job]

/-- The pipeline only appends to the event log. -/
theorem exec_eventsExtend (o : Oracle) (c : CourseRow) (s : RunState) :
    EventsExtend s (executeGenerateCourse o c s).1 := by
  have hpre : EventsExtend s
      ((s.updateProgress 10 "Stage 1: Generating course skeleton").logEvent "Stage 1"
        Severity.info "Starting course skeleton generation") :=
    eventsExtend_trans (updateProgress_eventsExtend _ _ _) (logEvent_eventsExtend _ _ _ _)
  cases h1 : o.llmSkeleton 1 (skelInputFor c) with
  | ok sk =>
      simp only [executeGenerateCourse]
      rw [stage1Skeleton_ok1 o _ _ sk h1]
      refine eventsExtend_trans ?_ (runStages_eventsExtend _ _ _ _)
      refine eventsExtend_trans ?_ (updateProgress_eventsExtend _ _ _)
      exact eventsExtend_trans hpre ⟨_, rfl⟩
  | error e1 =>
      cases h2 : o.llmSkeleton 2 (skelInputFor c) with
      | ok sk =>
          simp only [executeGenerateCourse]
          rw [stage1Skeleton_retry o _ _ sk e1 h1 h2]
          refine eventsExtend_trans ?_ (runStages_eventsExtend _ _ _ _)
          refine eventsExtend_trans ?_ (updateProgress_eventsExtend _ _ _)
          exact eventsExtend_trans hpre ⟨_, rfl⟩
      | error e2 =>
          cases h3 : o.mockSkeleton (skelInputFor c) with
          | ok sk =>
              simp only [executeGenerateCourse]
              rw [stage1Skeleton_mock o _ _ e1 e2 h1 h2, h3]
              refine eventsExtend_trans ?_ (runStages_eventsExtend _ _ _ _)
              refine eventsExtend_trans ?_ (updateProgress_eventsExtend _ _ _)
              exact eventsExtend_trans hpre ⟨_, rfl⟩
          | error e3 =>
              simp only [executeGenerateCourse]
              rw [stage1Skeleton_mock o _ _ e1 e2 h1 h2, h3]
              exact eventsExtend_trans hpre ⟨_, rfl⟩

/-- When the first attempt succeeds, exactly one skeleton call is made, with
the course inputs, and the fallback provider is never consulted. -/
theorem exec_calls_ok1 (o : Oracle) (c : CourseRow) (s : RunState) (sk : Skeleton)
    (h1 : o.llmSkeleton 1 (skelInputFor c) = Except.ok sk) :
    ((executeGenerateCourse o c s).1).skelCalls = s.skelCalls ++ [skelInputFor c] ∧
      ((executeGenerateCourse o c s).1).mockCalls = s.mockCalls := by
  simp only [executeGenerateCourse]
  rw [stage1Skeleton_ok1 o _ _ sk h1]
  rw [runStages_skelCalls, runStages_mockCalls]
  simp [updateProgress_skelCalls, updateProgress_mockCalls, logEvent_skelCalls,
    logEvent_mockCalls]

/-- When the first attempt fails and the retry succeeds, the configured
provider was called exactly twice with the same inputs and the fallback
provider never. -/
theorem exec_calls_retry (o : Oracle) (c : CourseRow) (s : RunState) (sk : Skeleton)
    (e1 : JsError) (h1 : o.llmSkeleton 1 (skelInputFor c) = Except.error e1)
    (h2 : o.llmSkeleton 2 (skelInputFor c) = Except.ok sk) :
    ((executeGenerateCourse o c s).1).skelCalls
        = s.skelCalls ++ [skelInputFor c, skelInputFor c] ∧
      ((executeGenerateCourse o c s).1).mockCalls = s.mockCalls := by
  simp only [executeGenerateCourse]
  rw [stage1Skeleton_retry o _ _ sk e1 h1 h2]
  rw [runStages_skelCalls, runStages_mockCalls]
  simp [updateProgress_skelCalls, updateProgress_mockCalls, logEvent_skelCalls,
    logEvent_mockCalls]

/-- When both configured attempts fail, the configured provider was called
exactly twice with the same inputs and the fallback provider exactly once,
whatever the fallback returns. -/
theorem exec_calls_mock (o : Oracle) (c : CourseRow) (s : RunState)
    (e1 e2 : JsError) (h1 : o.llmSkeleton 1 (skelInputFor c) = Except.error e1)
    (h2 : o.llmSkeleton 2 (skelInputFor c) = Except.error e2) :
    ((executeGenerateCourse o c s).1).skelCalls
        = s.skelCalls ++ [skelInputFor c, skelInputFor c] ∧
      ((executeGenerateCourse o c s).1).mockCalls = s.mockCalls ++ [skelInputFor c] := by
  cases h3 : o.mockSkeleton (skelInputFor c) with
  | ok sk =>
      simp only [executeGenerateCourse]
      rw [stage1Skeleton_mock o _ _ e1 e2 h1 h2, h3]
      rw [runStages_skelCalls, runStages_mockCalls]
      simp [updateProgress_skelCalls, updateProgress_mockCalls, logEvent_skelCalls,
        logEvent_mockCalls]
  | error e3 =>
      simp only [executeGenerateCourse]
      rw [stage1Skeleton_mock o _ _ e1 e2 h1 h2, h3]
      simp [updateProgress_skelCalls, updateProgress_mockCalls, logEvent_skelCalls,
        logEvent_mockCalls]

/-- A valid skeleton has exactly 5 modules. -/
theorem validSkeleton_length {sk : Skeleton} (h : validSkeleton sk = true) :
    sk.modules.length = 5 := by
  simp only [validSkeleton, Bool.and_eq_true, decide_eq_true_eq] at h
  exact h.1

/-- A valid skeleton's modules all satisfy the module schema. -/
theorem validSkeleton_all {sk : Skeleton} (h : validSkeleton sk = true) :
    ∀ m ∈ sk.modules, validModuleData m = true := by
  simp only [validSkeleton, Bool.and_eq_true, decide_eq_true_eq, List.all_eq_true] at h
  exact h.2

/-- The DB fetch returns as many modules as were saved. -/
theorem sortByOrder_length (ms : List ModuleData) :
    (sortByOrder ms).length = ms.length :=
  List.length_insertionSort _ ms

/-- Whichever rung of the retry ladder produced the skeleton, it satisfies
the skeleton schema (given valid providers). -/
theorem skeletonResult_valid {o : Oracle} (hv : o.Valid) {inp : SkelInput} {sk : Skeleton}
    (h : skeletonResult o inp = Except.ok sk) : validSkeleton sk = true := by
  obtain ⟨hv1, hv2, _, _, _⟩ := hv
  unfold skeletonResult at h
  cases h1 : o.llmSkeleton 1 inp with
  | ok sk1 => rw [h1] at h; cases h; exact hv1 1 inp sk h1
  | error e1 =>
      rw [h1] at h
      cases h2 : o.llmSkeleton 2 inp with
      | ok sk2 => rw [h2] at h; cases h; exact hv1 2 inp sk h2
      | error e2 => rw [h2] at h; exact hv2 inp sk h

/-!  ### Case lemmas for the dispatcher  -/

/-- The dispatcher on a queued `GENERATE_COURSE` job whose pipeline
completed: mark succeeded (progress 100, stage `Completed`), write the
terminal row, log the completion event, return the built course. -/
theorem processNextJob_ok (o : Oracle) (c : CourseRow) (j : JobRow)
    (hq : j.status = "queued") (ht : j.jtype = "GENERATE_COURSE")
    (bc : BuiltCourse) (hok : executeGenerateCourse o c (initRun j)
      = ((executeGenerateCourse o c (initRun j)).1, Except.ok bc)) :
    processNextJob o c j
      = ⟨succeededUpdate ((executeGenerateCourse o c (initRun j)).1).job,
          ((executeGenerateCourse o c (initRun j)).1).writes
            ++ [succeededUpdate ((executeGenerateCourse o c (initRun j)).1).job],
          ((executeGenerateCourse o c (initRun j)).1).events
            ++ [⟨"Completed", Severity.info, "Job completed successfully"⟩],
          ((executeGenerateCourse o c (initRun j)).1).skelCalls,
          ((executeGenerateCourse o c (initRun j)).1).mockCalls,
          some bc⟩ := by
  simp only [processNextJob, hq, ht, if_true, eq_self_iff_true]
  rw [hok]
  rfl

/-- The dispatcher on a queued `GENERATE_COURSE` job whose pipeline threw:
mark failed with the classified error code and message (writing only the
error columns and status), log the failure event, return no course. -/
theorem processNextJob_err (o : Oracle) (c : CourseRow) (j : JobRow)
    (hq : j.status = "queued") (ht : j.jtype = "GENERATE_COURSE")
    (e : JsError) (herr : executeGenerateCourse o c (initRun j)
      = ((executeGenerateCourse o c (initRun j)).1, Except.error e)) :
    processNextJob o c j
      = ⟨failedUpdate ((executeGenerateCourse o c (initRun j)).1).job
            (jsOr e.code "JOB_RUNNER_FAILURE") (jsOr (some e.message) "Unknown error"),
          ((executeGenerateCourse o c (initRun j)).1).writes
            ++ [failedUpdate ((executeGenerateCourse o c (initRun j)).1).job
              (jsOr e.code "JOB_RUNNER_FAILURE") (jsOr (some e.message) "Unknown error")],
          ((executeGenerateCourse o c (initRun j)).1).events
            ++ [⟨"Failed", Severity.error, jsOr (some e.message) "Unknown error"⟩],
          ((executeGenerateCourse o c (initRun j)).1).skelCalls,
          ((executeGenerateCourse o c (initRun j)).1).mockCalls,
          none⟩ := by
  simp only [processNextJob, hq, ht, if_true, eq_self_iff_true]
  rw [herr]
  rfl

/-- The dispatcher on a queued job of another type: claim it, run nothing,
mark succeeded. -/
theorem processNextJob_otherType (o : Oracle) (c : CourseRow) (j : JobRow)
    (hq : j.status = "queued") (ht : ¬j.jtype = "GENERATE_COURSE") :
    processNextJob o c j
      = ⟨succeededUpdate (claimedRow j),
          [claimedRow j, succeededUpdate (claimedRow j)],
          [⟨"Completed", Severity.info, "Job completed successfully"⟩],
          [], [], none⟩ := by
  simp only [processNextJob, hq, if_true, eq_self_iff_true, if_neg ht]
  rfl

/-- The dispatcher never selects a job that is not queued: such a job row is
left untouched and nothing is written. -/
theorem processNextJob_notQueued (o : Oracle) (c : CourseRow) (j : JobRow)
    (hq : ¬j.status = "queued") :
    processNextJob o c j = ⟨j, [], [], [], [], none⟩ := by
  simp only [processNextJob, if_neg hq]

/-- Final status and course artifact of a dispatched `GENERATE_COURSE` job,
as a function of how the skeleton ladder resolved. -/
theorem processNextJob_char (o : Oracle) (c : CourseRow) (j : JobRow)
    (hq : j.status = "queued") (ht : j.jtype = "GENERATE_COURSE") :
    (processNextJob o c j).course
        = (skeletonResult o (skelInputFor c)).toOption.map
            (fun sk =>
              { modules := courseModules o c (sortByOrder sk.modules), status := "active" }) ∧
      (processNextJob o c j).job.status
        = (match skeletonResult o (skelInputFor c) with
           | Except.ok _ => "succeeded"
           | Except.error _ => "failed") := by
  have hres := exec_result o c (initRun j)
  cases hsk : skeletonResult o (skelInputFor c) with
  | ok sk =>
      rw [hsk] at hres
      simp only [Except.map] at hres
      have hok : executeGenerateCourse o c (initRun j)
          = ((executeGenerateCourse o c (initRun j)).1,
             Except.ok { modules := courseModules o c (sortByOrder sk.modules),
                         status := "active" }) := by
        rw [← hres]
      rw [processNextJob_ok o c j hq ht _ hok]
      exact ⟨rfl, rfl⟩
  | error e =>
      rw [hsk] at hres
      simp only [Except.map] at hres
      have herr : executeGenerateCourse o c (initRun j)
          = ((executeGenerateCourse o c (initRun j)).1, Except.error e) := by
        rw [← hres]
      rw [processNextJob_err o c j hq ht e herr]
      exact ⟨rfl, rfl⟩

/-!  ### Validity of the demo oracles  -/

theorem okOracle_valid : Oracle.Valid okOracle := by
  refine ⟨?_, ?_, ?_, ?_, ?_⟩
  · intro k inp sk h; cases h; decide
  · intro inp sk h; cases h; decide
  · intro inp ls h; cases h; decide
  · intro inp mq h; cases h; decide
  · intro q k vs h
    cases h
    exact List.length_take_le k demoVideos

theorem noVideoOracle_valid : Oracle.Valid noVideoOracle := by
  obtain ⟨h1, h2, h3, h4, _⟩ := okOracle_valid
  exact ⟨h1, h2, h3, h4, (by intro q k vs h; cases h)⟩

theorem skelFailOracle_valid : Oracle.Valid skelFailOracle := by
  obtain ⟨_, h2, h3, h4, h5⟩ := okOracle_valid
  exact ⟨(by intro k inp sk h; cases h), h2, h3, h4, h5⟩

theorem quizFailOracle_valid : Oracle.Valid quizFailOracle := by
  obtain ⟨h1, h2, h3, _, h5⟩ := okOracle_valid
  exact ⟨h1, h2, h3, (by intro inp mq h; cases h), h5⟩

theorem lessonsFailOracle_valid : Oracle.Valid lessonsFailOracle := by
  obtain ⟨h1, h2, _, h4, h5⟩ := okOracle_valid
  exact ⟨h1, h2, (by intro inp ls h; cases h), h4, h5⟩

/-- A run of `running` writes followed by one terminal write is accepted by
`runningThenTerminal`. -/
theorem runningThenTerminal_append (l : List String) (t : String)
    (hl : ∀ x ∈ l, x = "running") (hterm : isTerminal t = true) :
    runningThenTerminal ("running" :: l ++ [t]) = true := by
  induction l with
  | nil => simp [runningThenTerminal, hterm]
  | cons x l' ih =>
      have hx := hl x (List.mem_cons_self _ _)
      subst hx
      have ih2 := ih fun y hy => hl y (List.mem_cons_of_mem _ hy)
      simp only [List.cons_append, runningThenTerminal] at ih2 ⊢
      simpa using ih2

/-!  ### Claims  -/

/-- Claim C5: the job status only ever moves along
`queued → running → {succeeded, failed}`: the dispatcher leaves a terminal
(or any non-queued) job row untouched, writing nothing; dispatching a queued
job writes a run of `running` rows followed by exactly one terminal write
and nothing after it; and the (spec-modelled) Job Store terminal operations
`markSucceeded` / `markFailed` are idempotent no-ops on a terminal job. -/
theorem c5_status_machine (o : Oracle) (c : CourseRow) (j : JobRow) (code msg : String) :
    (isTerminal j.status = true →
      processNextJob o c j = ⟨j, [], [], [], [], none⟩ ∧
        markSucceeded j = j ∧ markFailed j code msg = j) ∧
    (j.status = "queued" →
      runningThenTerminal
        ((processNextJob o c j).writes.map (fun w => w.status)) = true) := by
  constructor
  · intro hterm
    have hnq : ¬j.status = "queued" := by
      simp only [isTerminal, Bool.or_eq_true, decide_eq_true_eq] at hterm
      rcases hterm with h | h <;> simp [h]
    exact ⟨processNextJob_notQueued o c j hnq,
      by simp [markSucceeded, hterm], by simp [markFailed, hterm]⟩
  · intro hq
    by_cases ht : j.jtype = "GENERATE_COURSE"
    · obtain ⟨t, hw, hall, hjob⟩ := exec_statusExtend o c (initRun j)
      cases hres : (executeGenerateCourse o c (initRun j)).2 with
      | ok bc =>
          have hok : executeGenerateCourse o c (initRun j)
              = ((executeGenerateCourse o c (initRun j)).1, Except.ok bc) := by
            rw [← hres]
          rw [processNextJob_ok o c j hq ht bc hok]
          show runningThenTerminal
            ((((executeGenerateCourse o c (initRun j)).1).writes
              ++ [succeededUpdate ((executeGenerateCourse o c (initRun j)).1).job]).map
              (fun w => w.status)) = true
          rw [hw, show (initRun j).writes = [claimedRow j] from rfl]
          have hmap : ((([claimedRow j] ++ t)
              ++ [succeededUpdate ((executeGenerateCourse o c (initRun j)).1).job]).map
                (fun w => w.status))
              = "running" :: t.map (fun w => w.status) ++ ["succeeded"] := by
            simp [claimedRow, succeededUpdate]
          rw [hmap]
          refine runningThenTerminal_append _ _ ?_ (by decide)
          intro x hx
          obtain ⟨w, hwmem, rfl⟩ := List.mem_map.mp hx
          exact hall w hwmem
      | error e =>
          have herr : executeGenerateCourse o c (initRun j)
              = ((executeGenerateCourse o c (initRun j)).1, Except.error e) := by
            rw [← hres]
          rw [processNextJob_err o c j hq ht e herr]
          show runningThenTerminal
            ((((executeGenerateCourse o c (initRun j)).1).writes
              ++ [failedUpdate ((executeGenerateCourse o c (initRun j)).1).job
                (jsOr e.code "JOB_RUNNER_FAILURE") (jsOr (some e.message) "Unknown error")]).map
              (fun w => w.status)) = true
          rw [hw, show (initRun j).writes = [claimedRow j] from rfl]
          have hmap : ((([claimedRow j] ++ t)
              ++ [failedUpdate ((executeGenerateCourse o c (initRun j)).1).job
                (jsOr e.code "JOB_RUNNER_FAILURE")
                (jsOr (some e.message) "Unknown error")]).map (fun w => w.status))
              = "running" :: t.map (fun w => w.status) ++ ["failed"] := by
            simp [claimedRow, failedUpdate]
          rw [hmap]
          refine runningThenTerminal_append _ _ ?_ (by decide)
          intro x hx
          obtain ⟨w, hwmem, rfl⟩ := List.mem_map.mp hx
          exact hall w hwmem
    · rw [processNextJob_otherType o c j hq ht]
      simp [claimedRow, succeededUpdate, runningThenTerminal, isTerminal]

/-- Witness for `c5_status_machine`: a terminal job is untouched and its
mark operations are no-ops; a queued job's status writes are
`running … running, succeeded`. -/
theorem c5_status_machine_witness :
    (processNextJob okOracle demoCourse doneJob = ⟨doneJob, [], [], [], [], none⟩ ∧
        markSucceeded doneJob = doneJob ∧ markFailed doneJob "X" "y" = doneJob) ∧
      runningThenTerminal
        ((processNextJob okOracle demoCourse demoJob).writes.map (fun w => w.status)) = true :=
  ⟨(c5_status_machine okOracle demoCourse doneJob "X" "y").1 (by decide),
   (c5_status_machine okOracle demoCourse demoJob "X" "y").2 (by decide)⟩

/-- Claim C10: the failed-update writes only `status`, `errorCode` and
`errorMessage` (`updatedAt` is not modelled): `progressPercent`,
`currentStage`, `id` and the job type keep the values from the state at the
last successful progress update.  Concretely, on the only fatal path (all
three skeleton attempts fail), the failed job row still shows the 12% retry
checkpoint and its stage label. -/
theorem c10_failed_frame (o : Oracle) (c : CourseRow) (j : JobRow) (code msg : String)
    (e1 e2 e3 : JsError)
    (hq : j.status = "queued") (ht : j.jtype = "GENERATE_COURSE")
    (h1 : o.llmSkeleton 1 (skelInputFor c) = Except.error e1)
    (h2 : o.llmSkeleton 2 (skelInputFor c) = Except.error e2)
    (h3 : o.mockSkeleton (skelInputFor c) = Except.error e3) :
    ((failedUpdate j code msg).progressPercent = j.progressPercent ∧
      (failedUpdate j code msg).currentStage = j.currentStage ∧
      (failedUpdate j code msg).id = j.id ∧
      (failedUpdate j code msg).jtype = j.jtype ∧
      (failedUpdate j code msg).status = "failed" ∧
      (failedUpdate j code msg).errorCode = some code ∧
      (failedUpdate j code msg).errorMessage = some msg) ∧
    ((processNextJob o c j).job.status = "failed" ∧
      (processNextJob o c j).job.progressPercent = 12 ∧
      (processNextJob o c j).job.currentStage = "Stage 1: Retrying with repair") := by
  refine ⟨⟨rfl, rfl, rfl, rfl, rfl, rfl, rfl⟩, ?_⟩
  obtain ⟨hpcts, hjobrow, hres⟩ := exec_fail o c (initRun j) e1 e2 e3 h1 h2 h3
  have herr : executeGenerateCourse o c (initRun j)
      = ((executeGenerateCourse o c (initRun j)).1, Except.error e3) := by
    rw [← hres]
  rw [processNextJob_err o c j hq ht e3 herr]
  rw [show (DispatchResult.mk
    (failedUpdate ((executeGenerateCourse o c (initRun j)).1).job
      (jsOr e3.code "JOB_RUNNER_FAILURE") (jsOr (some e3.message) "Unknown error"))
    (((executeGenerateCourse o c (initRun j)).1).writes
      ++ [failedUpdate ((executeGenerateCourse o c (initRun j)).1).job
        (jsOr e3.code "JOB_RUNNER_FAILURE") (jsOr (some e3.message) "Unknown error")])
    (((executeGenerateCourse o c (initRun j)).1).events
      ++ [⟨"Failed", Severity.error, jsOr (some e3.message) "Unknown error"⟩])
    (((executeGenerateCourse o c (initRun j)).1).skelCalls)
    (((executeGenerateCourse o c (initRun j)).1).mockCalls)
    none).job
    = failedUpdate ((executeGenerateCourse o c (initRun j)).1).job
        (jsOr e3.code "JOB_RUNNER_FAILURE") (jsOr (some e3.message) "Unknown error") from rfl]
  rw [hjobrow]
  exact ⟨rfl, rfl, rfl⟩

/-- Witness for `c10_failed_frame`: concrete failing run showing the frozen
progress and stage, plus the frame equalities at a concrete row. -/
theorem c10_failed_frame_witness :
    ((failedUpdate demoJob "X" "y").progressPercent = demoJob.progressPercent ∧
      (failedUpdate demoJob "X" "y").currentStage = demoJob.currentStage ∧
      (failedUpdate demoJob "X" "y").id = demoJob.id ∧
      (failedUpdate demoJob "X" "y").jtype = demoJob.jtype ∧
      (failedUpdate demoJob "X" "y").status = "failed" ∧
      (failedUpdate demoJob "X" "y").errorCode = some "X" ∧
      (failedUpdate demoJob "X" "y").errorMessage = some "y") ∧
    ((processNextJob allFailOracle demoCourse demoJob).job.status = "failed" ∧
      (processNextJob allFailOracle demoCourse demoJob).job.progressPercent = 12 ∧
      (processNextJob allFailOracle demoCourse demoJob).job.currentStage
        = "Stage 1: Retrying with repair") :=
  c10_failed_frame allFailOracle demoCourse demoJob "X" "y" demoErr demoErr demoErr
    rfl rfl rfl rfl rfl

/-- Looking a key up in an extended registry falls through to the extension
when the key is absent from the prefix. -/
theorem lookup_append_of_none {α β : Type} [BEq α] (l1 l2 : List (α × β)) (k : α)
    (h : l1.lookup k = none) : (l1 ++ l2).lookup k = l2.lookup k := by
  induction l1 with
  | nil => simp
  | cons p l1 ih =>
      cases hk : k == p.1 with
      | true =>
          exfalso
          simp only [List.lookup, hk] at h
          cases h
      | false =>
          simp only [List.lookup, hk] at h ⊢
          exact ih h

/-- Claim C8: submitting twice with the same idempotency key returns the same
job id both times, the second submission changes nothing (no new Job, no new
Course), and across both calls at most one Course and one Job are created
for that key. -/
theorem c8_idempotent_submission (st : SubmissionState) (key : String) :
    (submitGenerate (submitGenerate st key).1 key).2.1 = (submitGenerate st key).2.1 ∧
      (submitGenerate (submitGenerate st key).1 key).1 = (submitGenerate st key).1 ∧
      (submitGenerate st key).1.courses.length ≤ st.courses.length + 1 ∧
      (submitGenerate st key).1.jobs.length ≤ st.jobs.length + 1 := by
  cases h : st.registry.lookup key with
  | some jid =>
      simp only [submitGenerate, h]
      exact ⟨trivial, trivial, Nat.le_succ _, Nat.le_succ _⟩
  | none =>
      have h2 : ((st.registry ++ [(key, st.nextId + 1)]).lookup key)
          = some (st.nextId + 1) := by
        rw [lookup_append_of_none _ _ _ h]
        simp [List.lookup]
      simp only [submitGenerate, h, h2]
      refine ⟨trivial, trivial, ?_, ?_⟩ <;> simp

/-- Full percent trace of a dispatched job when the first skeleton attempt
succeeds: claim write 0, stage-1 writes 10 and 20, stages 2–5, terminal 100. -/
theorem disp_pcts_ok1 (o : Oracle) (c : CourseRow) (j : JobRow)
    (hq : j.status = "queued") (ht : j.jtype = "GENERATE_COURSE") (sk : Skeleton)
    (h1 : o.llmSkeleton 1 (skelInputFor c) = Except.ok sk) :
    (processNextJob o c j).writes.map (fun w => w.progressPercent)
        = [0, 10, 20] ++ stagesPcts (sortByOrder sk.modules).length ++ [100] ∧
      (processNextJob o c j).job.status = "succeeded" := by
  have hskr : skeletonResult o (skelInputFor c) = Except.ok sk := by
    simp [skeletonResult, h1]
  have hres := exec_result o c (initRun j)
  rw [hskr] at hres
  simp only [Except.map] at hres
  have hok : executeGenerateCourse o c (initRun j)
      = ((executeGenerateCourse o c (initRun j)).1,
         Except.ok { modules := courseModules o c (sortByOrder sk.modules),
                     status := "active" }) := by
    rw [← hres]
  rw [processNextJob_ok o c j hq ht _ hok]
  refine ⟨?_, rfl⟩
  show (((executeGenerateCourse o c (initRun j)).1).writes
      ++ [succeededUpdate ((executeGenerateCourse o c (initRun j)).1).job]).map
      (fun w => w.progressPercent) = _
  rw [List.map_append, exec_pcts_ok1 o c (initRun j) sk h1]
  simp [initRun, claimedRow, succeededUpdate, List.append_assoc]

/-- Full percent trace when the first attempt fails and the retry succeeds:
the interim 12% checkpoint appears between 10 and 20. -/
theorem disp_pcts_retry (o : Oracle) (c : CourseRow) (j : JobRow)
    (hq : j.status = "queued") (ht : j.jtype = "GENERATE_COURSE") (sk : Skeleton)
    (e1 : JsError) (h1 : o.llmSkeleton 1 (skelInputFor c) = Except.error e1)
    (h2 : o.llmSkeleton 2 (skelInputFor c) = Except.ok sk) :
    (processNextJob o c j).writes.map (fun w => w.progressPercent)
        = [0, 10, 12, 20] ++ stagesPcts (sortByOrder sk.modules).length ++ [100] ∧
      (processNextJob o c j).job.status = "succeeded" := by
  have hskr : skeletonResult o (skelInputFor c) = Except.ok sk := by
    simp [skeletonResult, h1, h2]
  have hres := exec_result o c (initRun j)
  rw [hskr] at hres
  simp only [Except.map] at hres
  have hok : executeGenerateCourse o c (initRun j)
      = ((executeGenerateCourse o c (initRun j)).1,
         Except.ok { modules := courseModules o c (sortByOrder sk.modules),
                     status := "active" }) := by
    rw [← hres]
  rw [processNextJob_ok o c j hq ht _ hok]
  refine ⟨?_, rfl⟩
  show (((executeGenerateCourse o c (initRun j)).1).writes
      ++ [succeededUpdate ((executeGenerateCourse o c (initRun j)).1).job]).map
      (fun w => w.progressPercent) = _
  rw [List.map_append, exec_pcts_retry o c (initRun j) sk e1 h1 h2]
  simp [initRun, claimedRow, succeededUpdate, List.append_assoc]

/-- Full percent trace when both configured attempts fail and the fallback
provider succeeds. -/
theorem disp_pcts_mock (o : Oracle) (c : CourseRow) (j : JobRow)
    (hq : j.status = "queued") (ht : j.jtype = "GENERATE_COURSE") (sk : Skeleton)
    (e1 e2 : JsError) (h1 : o.llmSkeleton 1 (skelInputFor c) = Except.error e1)
    (h2 : o.llmSkeleton 2 (skelInputFor c) = Except.error e2)
    (h3 : o.mockSkeleton (skelInputFor c) = Except.ok sk) :
    (processNextJob o c j).writes.map (fun w => w.progressPercent)
        = [0, 10, 12, 20] ++ stagesPcts (sortByOrder sk.modules).length ++ [100] ∧
      (processNextJob o c j).job.status = "succeeded" := by
  have hskr : skeletonResult o (skelInputFor c) = Except.ok sk := by
    simp [skeletonResult, h1, h2, h3]
  have hres := exec_result o c (initRun j)
  rw [hskr] at hres
  simp only [Except.map] at hres
  have hok : executeGenerateCourse o c (initRun j)
      = ((executeGenerateCourse o c (initRun j)).1,
         Except.ok { modules := courseModules o c (sortByOrder sk.modules),
                     status := "active" }) := by
    rw [← hres]
  rw [processNextJob_ok o c j hq ht _ hok]
  refine ⟨?_, rfl⟩
  show (((executeGenerateCourse o c (initRun j)).1).writes
      ++ [succeededUpdate ((executeGenerateCourse o c (initRun j)).1).job]).map
      (fun w => w.progressPercent) = _
  rw [List.map_append, exec_pcts_mock o c (initRun j) sk e1 e2 h1 h2 h3]
  simp [initRun, claimedRow, succeededUpdate, List.append_assoc]

/-- Full percent trace when even the fallback provider fails: the failed
write repeats the 12% checkpoint value since it does not touch
`progressPercent`. -/
theorem disp_pcts_fail (o : Oracle) (c : CourseRow) (j : JobRow)
    (hq : j.status = "queued") (ht : j.jtype = "GENERATE_COURSE")
    (e1 e2 e3 : JsError) (h1 : o.llmSkeleton 1 (skelInputFor c) = Except.error e1)
    (h2 : o.llmSkeleton 2 (skelInputFor c) = Except.error e2)
    (h3 : o.mockSkeleton (skelInputFor c) = Except.error e3) :
    (processNextJob o c j).writes.map (fun w => w.progressPercent) = [0, 10, 12, 12] ∧
      (processNextJob o c j).job.status = "failed" := by
  obtain ⟨hpcts, hjobrow, hres⟩ := exec_fail o c (initRun j) e1 e2 e3 h1 h2 h3
  have herr : executeGenerateCourse o c (initRun j)
      = ((executeGenerateCourse o c (initRun j)).1, Except.error e3) := by
    rw [← hres]
  rw [processNextJob_err o c j hq ht e3 herr]
  refine ⟨?_, rfl⟩
  show (((executeGenerateCourse o c (initRun j)).1).writes
      ++ [failedUpdate ((executeGenerateCourse o c (initRun j)).1).job
        (jsOr e3.code "JOB_RUNNER_FAILURE") (jsOr (some e3.message) "Unknown error")]).map
      (fun w => w.progressPercent) = _
  rw [List.map_append, hpcts, hjobrow]
  simp [initRun, claimedRow, failedUpdate, progressRow]



/-- A list accepted by `nonDecreasingB` is a `≤`-chain. -/
theorem chain'_of_nonDecreasingB :
    ∀ l : List Nat, nonDecreasingB l = true → List.Chain' (fun a b => a ≤ b) l := by
  intro l
  induction l with
  | nil => intro _; exact List.chain'_nil
  | cons a rest ih =>
      cases rest with
      | nil => intro _; simp
      | cons b rest2 =>
          intro h
          simp only [nonDecreasingB, Bool.and_eq_true, decide_eq_true_eq] at h
          exact List.chain'_cons.mpr ⟨h.1, ih (by simpa [nonDecreasingB] using h.2)⟩

/-- Claim C4: over the lifetime of a single dispatched job — the claim write,
every stage update, and the terminal write — the written progress percents
are non-decreasing, and a job that ends `succeeded` has final progress
exactly 100. -/
theorem c4_progress_monotone (o : Oracle) (c : CourseRow) (j : JobRow)
    (hv : Oracle.Valid o) (hq : j.status = "queued") :
    List.Chain' (fun a b => a ≤ b)
        ((processNextJob o c j).writes.map (fun w => w.progressPercent)) ∧
      ((processNextJob o c j).job.status = "succeeded" →
        ((processNextJob o c j).writes.map (fun w => w.progressPercent)).getLast?
          = some 100) := by
  by_cases ht : j.jtype = "GENERATE_COURSE"
  · cases h1 : o.llmSkeleton 1 (skelInputFor c) with
    | ok sk =>
        obtain ⟨hmap, hst⟩ := disp_pcts_ok1 o c j hq ht sk h1
        have h5 : (sortByOrder sk.modules).length = 5 := by
          rw [sortByOrder_length]
          exact validSkeleton_length (hv.1 1 _ sk h1)
        rw [hmap, h5]
        exact ⟨chain'_of_nonDecreasingB _ (by decide), fun _ => by decide⟩
    | error e1 =>
        cases h2 : o.llmSkeleton 2 (skelInputFor c) with
        | ok sk =>
            obtain ⟨hmap, hst⟩ := disp_pcts_retry o c j hq ht sk e1 h1 h2
            have h5 : (sortByOrder sk.modules).length = 5 := by
              rw [sortByOrder_length]
              exact validSkeleton_length (hv.1 2 _ sk h2)
            rw [hmap, h5]
            exact ⟨chain'_of_nonDecreasingB _ (by decide), fun _ => by decide⟩
        | error e2 =>
            cases h3 : o.mockSkeleton (skelInputFor c) with
            | ok sk =>
                obtain ⟨hmap, hst⟩ := disp_pcts_mock o c j hq ht sk e1 e2 h1 h2 h3
                have h5 : (sortByOrder sk.modules).length = 5 := by
                  rw [sortByOrder_length]
                  exact validSkeleton_length (hv.2.1 _ sk h3)
                rw [hmap, h5]
                exact ⟨chain'_of_nonDecreasingB _ (by decide), fun _ => by decide⟩
            | error e3 =>
                obtain ⟨hmap, hst⟩ := disp_pcts_fail o c j hq ht e1 e2 e3 h1 h2 h3
                rw [hmap]
                refine ⟨chain'_of_nonDecreasingB _ (by decide), fun habs => ?_⟩
                rw [hst] at habs
                exact absurd habs (by decide)
  · rw [processNextJob_otherType o c j hq ht]
    have hmap : ([claimedRow j, succeededUpdate (claimedRow j)].map
        (fun w => w.progressPercent)) = [0, 100] := by
      simp [claimedRow, succeededUpdate]
    refine ⟨?_, fun _ => ?_⟩
    · show List.Chain' (fun a b => a ≤ b)
        ([claimedRow j, succeededUpdate (claimedRow j)].map (fun w => w.progressPercent))
      rw [hmap]; exact chain'_of_nonDecreasingB _ (by decide)
    · show ([claimedRow j, succeededUpdate (claimedRow j)].map
        (fun w => w.progressPercent)).getLast? = some 100
      rw [hmap]
      decide

/-- Valid stage-2 provider output has 3–10 steps. -/
theorem validModuleLessons_length {ls : ModuleLessons}
    (h : validModuleLessons ls = true) :
    3 ≤ ls.steps.length ∧ ls.steps.length ≤ 10 := by
  simp only [validModuleLessons, Bool.and_eq_true, decide_eq_true_eq] at h
  exact ⟨h.1.1.2, h.1.2⟩

/-- Valid stage-3 provider output has 5–15 questions. -/
theorem validModuleQuiz_length {mq : ModuleQuiz}
    (h : validModuleQuiz mq = true) :
    5 ≤ mq.questions.length ∧ mq.questions.length ≤ 15 := by
  simp only [validModuleQuiz, Bool.and_eq_true, decide_eq_true_eq] at h
  exact ⟨h.1.1.2, h.1.2⟩

/-- Whatever the lessons provider did for a module, the stored lessons
number 3–10 (provider path validated 3–10; fallback stores exactly 4). -/
theorem storedLessonsFor_length (o : Oracle) (c : CourseRow) (m : ModuleData)
    (hv : Oracle.Valid o) :
    3 ≤ (storedLessonsFor o c m).length ∧ (storedLessonsFor o c m).length ≤ 10 := by
  unfold storedLessonsFor
  cases h : o.llmLessons (lessonsInputFor c m) with
  | ok ls =>
      have hlen := validModuleLessons_length (hv.2.2.1 _ ls h)
      simpa using hlen
  | error e => simp [fallbackLessons]

/-- Whatever the quiz provider did for a module, the stored quiz has either
5–15 questions (validated provider path) or exactly 3 (fallback). -/
theorem storedQuizFor_length (o : Oracle) (c : CourseRow) (m : ModuleData)
    (hv : Oracle.Valid o) :
    (5 ≤ (storedQuizFor o c m).questions.length ∧
        (storedQuizFor o c m).questions.length ≤ 15) ∨
      (storedQuizFor o c m).questions.length = 3 := by
  unfold storedQuizFor
  cases h : o.llmQuiz (quizInputFor c m) with
  | ok qd =>
      left
      have hlen := validModuleQuiz_length (hv.2.2.2.1 _ qd h)
      simpa [storeQuiz] using hlen
  | error e => right; simp [fallbackQuiz]

/-- Whatever the video provider did for a module, at most 3 resources are
stored (the call site requests `maxResults = 3`). -/
theorem storedResourcesFor_length (o : Oracle) (c : CourseRow) (m : ModuleData)
    (hv : Oracle.Valid o) :
    (storedResourcesFor o c m).length ≤ 3 := by
  unfold storedResourcesFor
  cases h : o.ytSearch (queryFor c m) 3 with
  | ok videos =>
      have hlen := hv.2.2.2.2 _ _ videos h
      simpa [storeResources] using hlen
  | error e => simp

/-- The four fallback lessons each get `Math.floor(timePerDay / 4)`
estimated minutes. -/
theorem fallbackLessons_minutes (title : String) (t : Nat) :
    ∀ l ∈ fallbackLessons title t, l.estimatedMinutes = t / 4 := by
  intro l hl
  simp only [fallbackLessons, List.mem_map, List.mem_cons, List.not_mem_nil, or_false] at hl
  obtain ⟨jj, hj, rfl⟩ := hl
  rfl

/-- The four fallback lessons are typed learn, practice, learn, apply. -/
theorem fallbackLessons_types (title : String) (t : Nat) :
    (fallbackLessons title t).map (fun l => l.type)
      = [LessonType.learn, LessonType.practice, LessonType.learn, LessonType.apply] := rfl

/-- On a resolved skeleton, the dispatched job succeeds and its course is
the module tree built from the sorted skeleton modules. -/
theorem disp_success_course (o : Oracle) (c : CourseRow) (j : JobRow)
    (hq : j.status = "queued") (ht : j.jtype = "GENERATE_COURSE") {sk : Skeleton}
    (hskr : skeletonResult o (skelInputFor c) = Except.ok sk) :
    (processNextJob o c j).job.status = "succeeded" ∧
      (processNextJob o c j).course
        = some { modules := courseModules o c (sortByOrder sk.modules),
                 status := "active" } := by
  obtain ⟨hcourse, hstatus⟩ := processNextJob_char o c j hq ht
  rw [hskr] at hcourse hstatus
  exact ⟨hstatus, by simpa [Except.toOption] using hcourse⟩

/-- If the dispatcher produced a course, the skeleton ladder resolved and
the course is exactly the built module tree. -/
theorem disp_course_inv (o : Oracle) (c : CourseRow) (j : JobRow)
    (hq : j.status = "queued") (ht : j.jtype = "GENERATE_COURSE")
    (bc : BuiltCourse) (hbc : (processNextJob o c j).course = some bc) :
    ∃ sk, skeletonResult o (skelInputFor c) = Except.ok sk ∧
      bc = { modules := courseModules o c (sortByOrder sk.modules), status := "active" } := by
  obtain ⟨hcourse, _⟩ := processNextJob_char o c j hq ht
  cases hsk : skeletonResult o (skelInputFor c) with
  | ok sk =>
      refine ⟨sk, rfl, ?_⟩
      rw [hsk] at hcourse
      simp only [Except.toOption, Option.map] at hcourse
      rw [hbc] at hcourse
      exact Option.some.inj hcourse
  | error e =>
      rw [hsk] at hcourse
      simp only [Except.toOption, Option.map] at hcourse
      rw [hbc] at hcourse
      cases hcourse

/-- After both configured skeleton attempts fail, the pipeline's event log
contains the warn event documenting the switch to the fallback generator. -/
theorem exec_fallback_event (o : Oracle) (c : CourseRow) (s : RunState)
    (e1 e2 : JsError) (h1 : o.llmSkeleton 1 (skelInputFor c) = Except.error e1)
    (h2 : o.llmSkeleton 2 (skelInputFor c) = Except.error e2) :
    (⟨"Stage 1", Severity.warn, "Using fallback generator"⟩ : JEvent)
      ∈ ((executeGenerateCourse o c s).1).events := by
  cases h3 : o.mockSkeleton (skelInputFor c) with
  | ok sk =>
      simp only [executeGenerateCourse]
      rw [stage1Skeleton_mock o _ _ e1 e2 h1 h2, h3]
      refine eventsExtend_mem (runStages_eventsExtend _ _ _ _) ?_
      rw [updateProgress_events]
      simp [RunState.logEvent, updateProgress_events]
  | error e3 =>
      simp only [executeGenerateCourse]
      rw [stage1Skeleton_mock o _ _ e1 e2 h1 h2, h3]
      simp [RunState.logEvent, updateProgress_events]

/-- An event of any other stage is not a stage-4 warn. -/
theorem isStage4Warn_false_of_stage {ev : JEvent} {st : String}
    (hx : ev.stage = st) (hne : st ≠ "Stage 4") : isStage4Warn ev = false := by
  apply decide_eq_false
  rintro ⟨hs, _⟩
  exact hne (hx.symm.trans hs)

/-- A block of events all carrying another stage label contributes no
stage-4 warns. -/
theorem countP_zero_of_stage (evs : List JEvent) (st : String) (hne : st ≠ "Stage 4")
    (h : ∀ ev ∈ evs, ev.stage = st) : evs.countP isStage4Warn = 0 :=
  List.countP_eq_zero.mpr fun ev hm => by
    rw [isStage4Warn_false_of_stage (h ev hm) hne]
    exact Bool.false_ne_true

/-- The per-module warn block contributes exactly one stage-4 warn per
module. -/
theorem countP_warnMap (ms : List ModuleData) :
    (ms.map (fun m => stage4WarnEvent m.order)).countP isStage4Warn = ms.length := by
  rw [List.countP_map]
  rw [List.countP_eq_length]
  intro m _
  simp [isStage4Warn, stage4WarnEvent, Function.comp]

/-- When the skeleton resolved and every video search fails, the pipeline's
event log is: the stage-1 events, the stage-2 header and events, the stage-3
header and events, the stage-4 header, one stage-4 warn per (sorted) module,
and the two stage-5 info events. -/
theorem exec_events_allfail (o : Oracle) (c : CourseRow) (s : RunState) (sk : Skeleton)
    (hskr : skeletonResult o (skelInputFor c) = Except.ok sk)
    (hyt : ∀ q k, ∃ e, o.ytSearch q k = Except.error e) :
    ∃ pre e2 e3,
      (∀ ev ∈ pre, ev.stage = "Stage 1") ∧ (∀ ev ∈ e2, ev.stage = "Stage 2") ∧
      (∀ ev ∈ e3, ev.stage = "Stage 3") ∧
      ((executeGenerateCourse o c s).1).events
        = s.events ++ pre
          ++ [⟨"Stage 2", Severity.info, "Starting lesson generation for all modules"⟩]
          ++ e2 ++ [⟨"Stage 3", Severity.info, "Starting quiz generation for all modules"⟩]
          ++ e3 ++ [⟨"Stage 4", Severity.info, "Starting YouTube resource search"⟩]
          ++ (sortByOrder sk.modules).map (fun m => stage4WarnEvent m.order)
          ++ [⟨"Stage 5", Severity.info, "Finalizing course"⟩,
              ⟨"Stage 5", Severity.info, "Course activated"⟩] := by
  set A := (s.updateProgress 10 "Stage 1: Generating course skeleton").logEvent "Stage 1"
    Severity.info "Starting course skeleton generation" with hA
  cases h1 : o.llmSkeleton 1 (skelInputFor c) with
  | ok sk1 =>
      have hsk1 : sk1 = sk := by
        unfold skeletonResult at hskr
        rw [h1] at hskr
        exact Except.ok.inj hskr
      subst hsk1
      simp only [executeGenerateCourse]
      rw [stage1Skeleton_ok1 o _ _ sk1 h1]
      obtain ⟨e2, e3, h2all, h3all, hev⟩ := runStages_events_allfail o c
        (sortByOrder sk1.modules)
        (RunState.updateProgress
          { A with
            events := A.events
              ++ [⟨"Stage 1", Severity.info, "Course skeleton generated"⟩]
            skelCalls := A.skelCalls ++ [skelInputFor c] } 20 "Stage 1: Complete") hyt
      refine ⟨[⟨"Stage 1", Severity.info, "Starting course skeleton generation"⟩,
        ⟨"Stage 1", Severity.info, "Course skeleton generated"⟩], e2, e3,
        by decide, h2all, h3all, ?_⟩
      rw [hev]
      rw [show (RunState.updateProgress
          { A with
            events := A.events
              ++ [⟨"Stage 1", Severity.info, "Course skeleton generated"⟩]
            skelCalls := A.skelCalls ++ [skelInputFor c] } 20 "Stage 1: Complete").events
          = s.events ++ [⟨"Stage 1", Severity.info, "Starting course skeleton generation"⟩,
              ⟨"Stage 1", Severity.info, "Course skeleton generated"⟩] from by
        rw [updateProgress_events]
        show A.events ++ _ = _
        rw [hA, logEvent_events, updateProgress_events]
        simp]
  | error e1 =>
      cases h2 : o.llmSkeleton 2 (skelInputFor c) with
      | ok sk2 =>
          have hsk2 : sk2 = sk := by
            unfold skeletonResult at hskr
            rw [h1, h2] at hskr
            exact Except.ok.inj hskr
          subst hsk2
          simp only [executeGenerateCourse]
          rw [stage1Skeleton_retry o _ _ sk2 e1 h1 h2]
          obtain ⟨e2, e3, h2all, h3all, hev⟩ := runStages_events_allfail o c
            (sortByOrder sk2.modules)
            (RunState.updateProgress
              { A with
                job := progressRow A.job 12 "Stage 1: Retrying with repair"
                writes := A.writes
                  ++ [progressRow A.job 12 "Stage 1: Retrying with repair"]
                events := A.events
                  ++ [⟨"Stage 1", Severity.warn, "LLM failed, attempting repair"⟩,
                      ⟨"Stage 1", Severity.info, "Repair succeeded"⟩]
                skelCalls := A.skelCalls ++ [skelInputFor c, skelInputFor c] }
              20 "Stage 1: Complete") hyt
          refine ⟨[⟨"Stage 1", Severity.info, "Starting course skeleton generation"⟩,
            ⟨"Stage 1", Severity.warn, "LLM failed, attempting repair"⟩,
            ⟨"Stage 1", Severity.info, "Repair succeeded"⟩], e2, e3,
            by decide, h2all, h3all, ?_⟩
          rw [hev]
          rw [show (RunState.updateProgress
              { A with
                job := progressRow A.job 12 "Stage 1: Retrying with repair"
                writes := A.writes
                  ++ [progressRow A.job 12 "Stage 1: Retrying with repair"]
                events := A.events
                  ++ [⟨"Stage 1", Severity.warn, "LLM failed, attempting repair"⟩,
                      ⟨"Stage 1", Severity.info, "Repair succeeded"⟩]
                skelCalls := A.skelCalls ++ [skelInputFor c, skelInputFor c] }
              20 "Stage 1: Complete").events
              = s.events
                ++ [⟨"Stage 1", Severity.info, "Starting course skeleton generation"⟩,
                    ⟨"Stage 1", Severity.warn, "LLM failed, attempting repair"⟩,
                    ⟨"Stage 1", Severity.info, "Repair succeeded"⟩] from by
            rw [updateProgress_events]
            show A.events ++ _ = _
            rw [hA, logEvent_events, updateProgress_events]
            simp]
      | error e2x =>
          cases h3 : o.mockSkeleton (skelInputFor c) with
          | ok sk3 =>
              have hsk3 : sk3 = sk := by
                unfold skeletonResult at hskr
                rw [h1, h2, h3] at hskr
                exact Except.ok.inj hskr
              subst hsk3
              simp only [executeGenerateCourse]
              rw [stage1Skeleton_mock o _ _ e1 e2x h1 h2, h3]
              obtain ⟨e2, e3, h2all, h3all, hev⟩ := runStages_events_allfail o c
                (sortByOrder sk3.modules)
                (RunState.updateProgress
                  { A with
                    job := progressRow A.job 12 "Stage 1: Retrying with repair"
                    writes := A.writes
                      ++ [progressRow A.job 12 "Stage 1: Retrying with repair"]
                    events := A.events
                      ++ [⟨"Stage 1", Severity.warn, "LLM failed, attempting repair"⟩,
                          ⟨"Stage 1", Severity.warn, "Using fallback generator"⟩]
                    skelCalls := A.skelCalls ++ [skelInputFor c, skelInputFor c]
                    mockCalls := A.mockCalls ++ [skelInputFor c] }
                  20 "Stage 1: Complete") hyt
              refine ⟨[⟨"Stage 1", Severity.info, "Starting course skeleton generation"⟩,
                ⟨"Stage 1", Severity.warn, "LLM failed, attempting repair"⟩,
                ⟨"Stage 1", Severity.warn, "Using fallback generator"⟩], e2, e3,
                by decide, h2all, h3all, ?_⟩
              rw [hev]
              rw [show (RunState.updateProgress
                  { A with
                    job := progressRow A.job 12 "Stage 1: Retrying with repair"
                    writes := A.writes
                      ++ [progressRow A.job 12 "Stage 1: Retrying with repair"]
                    events := A.events
                      ++ [⟨"Stage 1", Severity.warn, "LLM failed, attempting repair"⟩,
                          ⟨"Stage 1", Severity.warn, "Using fallback generator"⟩]
                    skelCalls := A.skelCalls ++ [skelInputFor c, skelInputFor c]
                    mockCalls := A.mockCalls ++ [skelInputFor c] }
                  20 "Stage 1: Complete").events
                  = s.events
                    ++ [⟨"Stage 1", Severity.info, "Starting course skeleton generation"⟩,
                        ⟨"Stage 1", Severity.warn, "LLM failed, attempting repair"⟩,
                        ⟨"Stage 1", Severity.warn, "Using fallback generator"⟩] from by
                rw [updateProgress_events]
                show A.events ++ _ = _
                rw [hA, logEvent_events, updateProgress_events]
                simp]
          | error e3x =>
              exfalso
              unfold skeletonResult at hskr
              rw [h1, h2, h3] at hskr
              cases hskr

/-- Claim C3: the progress percents written during a run decompose exactly into
the spec's per-stage segments — the dispatcher's claim write 0, then stage 1
(10, the interim 12 checkpoint exactly when the first provider attempt
failed, 20), then the stage 2–5 segments, then the terminal 100 — and every
value of the stage-`k` segment lies in the spec's stage-`k` range (stage 1
in 0–20, stage 2 in 20–40 interpolated per module, stage 3 in 40–70,
stage 4 in 70–95, stage 5 in 95–100). -/
theorem c3_stage_ranges (o : Oracle) (c : CourseRow) (j : JobRow)
    (hv : Oracle.Valid o) (hq : j.status = "queued") (ht : j.jtype = "GENERATE_COURSE") :
    (∀ sk, o.llmSkeleton 1 (skelInputFor c) = Except.ok sk →
      (processNextJob o c j).writes.map (fun w => w.progressPercent)
        = [0] ++ stage1Seg false ++ (stage2Seg ++ stage3Seg ++ stage4Seg ++ stage5Seg)
          ++ [100]) ∧
    (∀ e1 sk, o.llmSkeleton 1 (skelInputFor c) = Except.error e1 →
      o.llmSkeleton 2 (skelInputFor c) = Except.ok sk →
      (processNextJob o c j).writes.map (fun w => w.progressPercent)
        = [0] ++ stage1Seg true ++ (stage2Seg ++ stage3Seg ++ stage4Seg ++ stage5Seg)
          ++ [100]) ∧
    (∀ e1 e2 sk, o.llmSkeleton 1 (skelInputFor c) = Except.error e1 →
      o.llmSkeleton 2 (skelInputFor c) = Except.error e2 →
      o.mockSkeleton (skelInputFor c) = Except.ok sk →
      (processNextJob o c j).writes.map (fun w => w.progressPercent)
        = [0] ++ stage1Seg true ++ (stage2Seg ++ stage3Seg ++ stage4Seg ++ stage5Seg)
          ++ [100]) ∧
    (∀ e1 e2 e3, o.llmSkeleton 1 (skelInputFor c) = Except.error e1 →
      o.llmSkeleton 2 (skelInputFor c) = Except.error e2 →
      o.mockSkeleton (skelInputFor c) = Except.error e3 →
      (processNextJob o c j).writes.map (fun w => w.progressPercent)
        = [0] ++ [10, 12] ++ [12]) ∧
    ((∀ p ∈ stage1Seg true, p ≤ 20) ∧ (∀ p ∈ stage1Seg false, p ≤ 20) ∧
      12 ∈ stage1Seg true ∧
      (∀ p ∈ stage2Seg, 20 ≤ p ∧ p ≤ 40) ∧ (∀ p ∈ stage3Seg, 40 ≤ p ∧ p ≤ 70) ∧
      (∀ p ∈ stage4Seg, 70 ≤ p ∧ p ≤ 95) ∧ (∀ p ∈ stage5Seg, 95 ≤ p ∧ p ≤ 100)) := by
  refine ⟨?_, ?_, ?_, ?_, by decide⟩
  · intro sk h1
    obtain ⟨hmap, _⟩ := disp_pcts_ok1 o c j hq ht sk h1
    have h5 : (sortByOrder sk.modules).length = 5 := by
      rw [sortByOrder_length]
      exact validSkeleton_length (hv.1 1 _ sk h1)
    rw [hmap, h5]
    decide
  · intro e1 sk h1 h2
    obtain ⟨hmap, _⟩ := disp_pcts_retry o c j hq ht sk e1 h1 h2
    have h5 : (sortByOrder sk.modules).length = 5 := by
      rw [sortByOrder_length]
      exact validSkeleton_length (hv.1 2 _ sk h2)
    rw [hmap, h5]
    decide
  · intro e1 e2 sk h1 h2 h3
    obtain ⟨hmap, _⟩ := disp_pcts_mock o c j hq ht sk e1 e2 h1 h2 h3
    have h5 : (sortByOrder sk.modules).length = 5 := by
      rw [sortByOrder_length]
      exact validSkeleton_length (hv.2.1 _ sk h3)
    rw [hmap, h5]
    decide
  · intro e1 e2 e3 h1 h2 h3
    obtain ⟨hmap, _⟩ := disp_pcts_fail o c j hq ht e1 e2 e3 h1 h2 h3
    rw [hmap]
    decide

/-- Witness for `c3_stage_ranges`: instantiated on the oracle whose
configured skeleton provider always fails but whose fallback succeeds. -/
theorem c3_stage_ranges_witness :
    (∀ sk, skelFailOracle.llmSkeleton 1 (skelInputFor demoCourse) = Except.ok sk →
      (processNextJob skelFailOracle demoCourse demoJob).writes.map
          (fun w => w.progressPercent)
        = [0] ++ stage1Seg false ++ (stage2Seg ++ stage3Seg ++ stage4Seg ++ stage5Seg)
          ++ [100]) ∧
    (∀ e1 sk, skelFailOracle.llmSkeleton 1 (skelInputFor demoCourse) = Except.error e1 →
      skelFailOracle.llmSkeleton 2 (skelInputFor demoCourse) = Except.ok sk →
      (processNextJob skelFailOracle demoCourse demoJob).writes.map
          (fun w => w.progressPercent)
        = [0] ++ stage1Seg true ++ (stage2Seg ++ stage3Seg ++ stage4Seg ++ stage5Seg)
          ++ [100]) ∧
    (∀ e1 e2 sk, skelFailOracle.llmSkeleton 1 (skelInputFor demoCourse) = Except.error e1 →
      skelFailOracle.llmSkeleton 2 (skelInputFor demoCourse) = Except.error e2 →
      skelFailOracle.mockSkeleton (skelInputFor demoCourse) = Except.ok sk →
      (processNextJob skelFailOracle demoCourse demoJob).writes.map
          (fun w => w.progressPercent)
        = [0] ++ stage1Seg true ++ (stage2Seg ++ stage3Seg ++ stage4Seg ++ stage5Seg)
          ++ [100]) ∧
    (∀ e1 e2 e3, skelFailOracle.llmSkeleton 1 (skelInputFor demoCourse) = Except.error e1 →
      skelFailOracle.llmSkeleton 2 (skelInputFor demoCourse) = Except.error e2 →
      skelFailOracle.mockSkeleton (skelInputFor demoCourse) = Except.error e3 →
      (processNextJob skelFailOracle demoCourse demoJob).writes.map
          (fun w => w.progressPercent)
        = [0] ++ [10, 12] ++ [12]) ∧
    ((∀ p ∈ stage1Seg true, p ≤ 20) ∧ (∀ p ∈ stage1Seg false, p ≤ 20) ∧
      12 ∈ stage1Seg true ∧
      (∀ p ∈ stage2Seg, 20 ≤ p ∧ p ≤ 40) ∧ (∀ p ∈ stage3Seg, 40 ≤ p ∧ p ≤ 70) ∧
      (∀ p ∈ stage4Seg, 70 ≤ p ∧ p ≤ 95) ∧ (∀ p ∈ stage5Seg, 95 ≤ p ∧ p ≤ 100)) :=
  c3_stage_ranges skelFailOracle demoCourse demoJob skelFailOracle_valid rfl rfl

/-- Claim C2: the stage-1 retry ladder.  If the first provider call fails, the
orchestrator retries exactly once with the same inputs (the configured
provider is called exactly twice, both times with the course's topic, level
and time budget).  If the retry also fails, it switches to the fallback
provider (called exactly once, same inputs), a warn-level event documents
the fallback, and the job still succeeds whenever the fallback delivers —
only if even the fallback attempt fails does the whole job fail. -/
theorem c2_skeleton_retry_fallback (o : Oracle) (c : CourseRow) (j : JobRow)
    (hq : j.status = "queued") (ht : j.jtype = "GENERATE_COURSE") (e1 : JsError)
    (h1 : o.llmSkeleton 1 (skelInputFor c) = Except.error e1) :
    (∀ sk, o.llmSkeleton 2 (skelInputFor c) = Except.ok sk →
      (processNextJob o c j).skelCalls = [skelInputFor c, skelInputFor c] ∧
        (processNextJob o c j).mockCalls = []) ∧
    (∀ e2, o.llmSkeleton 2 (skelInputFor c) = Except.error e2 →
      (processNextJob o c j).skelCalls = [skelInputFor c, skelInputFor c] ∧
        (processNextJob o c j).mockCalls = [skelInputFor c] ∧
        (⟨"Stage 1", Severity.warn, "Using fallback generator"⟩ : JEvent)
          ∈ (processNextJob o c j).events ∧
        (∀ sk, o.mockSkeleton (skelInputFor c) = Except.ok sk →
          (processNextJob o c j).job.status = "succeeded") ∧
        (∀ e3, o.mockSkeleton (skelInputFor c) = Except.error e3 →
          (processNextJob o c j).job.status = "failed")) := by
  constructor
  · intro sk h2
    obtain ⟨hmap, hst⟩ := disp_pcts_retry o c j hq ht sk e1 h1 h2
    have hskr : skeletonResult o (skelInputFor c) = Except.ok sk := by
      simp [skeletonResult, h1, h2]
    have hres := exec_result o c (initRun j)
    rw [hskr] at hres
    simp only [Except.map] at hres
    have hok : executeGenerateCourse o c (initRun j)
        = ((executeGenerateCourse o c (initRun j)).1,
           Except.ok { modules := courseModules o c (sortByOrder sk.modules),
                       status := "active" }) := by
      rw [← hres]
    rw [processNextJob_ok o c j hq ht _ hok]
    obtain ⟨hsc, hmc⟩ := exec_calls_retry o c (initRun j) sk e1 h1 h2
    exact ⟨by rw [hsc]; rfl, by rw [hmc]; rfl⟩
  · intro e2 h2
    have hmem := exec_fallback_event o c (initRun j) e1 e2 h1 h2
    obtain ⟨hsc, hmc⟩ := exec_calls_mock o c (initRun j) e1 e2 h1 h2
    cases h3 : o.mockSkeleton (skelInputFor c) with
    | ok sk =>
        have hskr : skeletonResult o (skelInputFor c) = Except.ok sk := by
          simp [skeletonResult, h1, h2, h3]
        have hres := exec_result o c (initRun j)
        rw [hskr] at hres
        simp only [Except.map] at hres
        have hok : executeGenerateCourse o c (initRun j)
            = ((executeGenerateCourse o c (initRun j)).1,
               Except.ok { modules := courseModules o c (sortByOrder sk.modules),
                           status := "active" }) := by
          rw [← hres]
        rw [processNextJob_ok o c j hq ht _ hok]
        refine ⟨by rw [hsc]; rfl, by rw [hmc]; rfl, ?_, ?_, ?_⟩
        · exact List.mem_append_left _ hmem
        · intro sk2 _; rfl
        · intro e3 h3x
          cases h3x
    | error e3 =>
        have hskr : skeletonResult o (skelInputFor c) = Except.error e3 := by
          simp [skeletonResult, h1, h2, h3]
        have hres := exec_result o c (initRun j)
        rw [hskr] at hres
        simp only [Except.map] at hres
        have herr : executeGenerateCourse o c (initRun j)
            = ((executeGenerateCourse o c (initRun j)).1, Except.error e3) := by
          rw [← hres]
        rw [processNextJob_err o c j hq ht e3 herr]
        refine ⟨by rw [hsc]; rfl, by rw [hmc]; rfl, ?_, ?_, ?_⟩
        · exact List.mem_append_left _ hmem
        · intro sk2 h3x
          cases h3x
        · intro e3x _; rfl

/-- Witness for `c2_skeleton_retry_fallback`: the oracle whose configured
provider always fails and whose fallback succeeds. -/
theorem c2_skeleton_retry_fallback_witness :
    (∀ sk, skelFailOracle.llmSkeleton 2 (skelInputFor demoCourse) = Except.ok sk →
      (processNextJob skelFailOracle demoCourse demoJob).skelCalls
          = [skelInputFor demoCourse, skelInputFor demoCourse] ∧
        (processNextJob skelFailOracle demoCourse demoJob).mockCalls = []) ∧
    (∀ e2, skelFailOracle.llmSkeleton 2 (skelInputFor demoCourse) = Except.error e2 →
      (processNextJob skelFailOracle demoCourse demoJob).skelCalls
          = [skelInputFor demoCourse, skelInputFor demoCourse] ∧
        (processNextJob skelFailOracle demoCourse demoJob).mockCalls
          = [skelInputFor demoCourse] ∧
        (⟨"Stage 1", Severity.warn, "Using fallback generator"⟩ : JEvent)
          ∈ (processNextJob skelFailOracle demoCourse demoJob).events ∧
        (∀ sk, skelFailOracle.mockSkeleton (skelInputFor demoCourse) = Except.ok sk →
          (processNextJob skelFailOracle demoCourse demoJob).job.status = "succeeded") ∧
        (∀ e3, skelFailOracle.mockSkeleton (skelInputFor demoCourse) = Except.error e3 →
          (processNextJob skelFailOracle demoCourse demoJob).job.status = "failed")) :=
  c2_skeleton_retry_fallback skelFailOracle demoCourse demoJob rfl rfl demoErr rfl

/-- Claim C1 (amended): for every job that reaches `succeeded`, the Course has
exactly 5 modules; every module has 3–10 lessons, exactly one quiz, and 0–5
resources; the quiz has 5–15 questions when provider-generated, or exactly 3
questions when the fallback quiz was stored.  (The original claim's
unconditional 5–15 bound fails on the fallback path — see the
counterexample.) -/
theorem c1_course_shape_amended (o : Oracle) (c : CourseRow) (j : JobRow)
    (hv : Oracle.Valid o) (hq : j.status = "queued") (ht : j.jtype = "GENERATE_COURSE")
    (hsucc : (processNextJob o c j).job.status = "succeeded") :
    ∀ bc, (processNextJob o c j).course = some bc →
      bc.modules.length = 5 ∧
      ∀ bm ∈ bc.modules,
        (3 ≤ bm.lessons.length ∧ bm.lessons.length ≤ 10) ∧
        bm.quizzes.length = 1 ∧
        (∀ qz ∈ bm.quizzes,
          (5 ≤ qz.questions.length ∧ qz.questions.length ≤ 15) ∨
            qz.questions.length = 3) ∧
        bm.resources.length ≤ 5 := by
  intro bc hbc
  obtain ⟨sk, hskr, rfl⟩ := disp_course_inv o c j hq ht bc hbc
  constructor
  · show (courseModules o c (sortByOrder sk.modules)).length = 5
    simp only [courseModules, List.length_map, sortByOrder_length]
    exact validSkeleton_length (skeletonResult_valid hv hskr)
  · intro bm hbm
    simp only [courseModules, List.mem_map] at hbm
    obtain ⟨m, hm, rfl⟩ := hbm
    refine ⟨storedLessonsFor_length o c m hv, rfl, ?_, ?_⟩
    · intro qz hqz
      rcases List.mem_singleton.mp hqz with rfl
      exact storedQuizFor_length o c m hv
    · exact le_trans (storedResourcesFor_length o c m hv) (by decide)

/-- Counterexample to **C1** as stated: with a provider whose quiz
generation always fails (and everything else succeeding), the job still
reaches `succeeded`, yet every module's single quiz stores exactly 3
questions — outside the claimed 5–15 range. -/
theorem c1_course_shape_counterexample :
    (processNextJob quizFailOracle demoCourse demoJob).job.status = "succeeded" ∧
      ((processNextJob quizFailOracle demoCourse demoJob).course.map
          (fun bc => bc.modules.map fun bm => bm.quizzes.map fun qz => qz.questions.length))
        = some [[3], [3], [3], [3], [3]] ∧
      ¬(5 ≤ 3 ∧ 3 ≤ 15) := by
  refine ⟨by decide, by decide, by decide⟩

/-- Witness for `c1_course_shape_amended`: the all-providers-succeed run. -/
theorem c1_course_shape_amended_witness :
    ((processNextJob okOracle demoCourse demoJob).course.map
        (fun bc => bc.modules.length)) = some 5 ∧
      ∀ bc, (processNextJob okOracle demoCourse demoJob).course = some bc →
        bc.modules.length = 5 ∧
        ∀ bm ∈ bc.modules,
          (3 ≤ bm.lessons.length ∧ bm.lessons.length ≤ 10) ∧
          bm.quizzes.length = 1 ∧
          (∀ qz ∈ bm.quizzes,
            (5 ≤ qz.questions.length ∧ qz.questions.length ≤ 15) ∨
              qz.questions.length = 3) ∧
          bm.resources.length ≤ 5 :=
  ⟨by decide,
   c1_course_shape_amended okOracle demoCourse demoJob okOracle_valid rfl rfl (by decide)⟩

/-- Claim C6: a stage-2 failure never fails the job (the final status depends
only on the skeleton ladder), and for every module whose lesson generation
failed the stored lessons are exactly the 4 synthesized fallback lessons:
each gets `timePerDay / 4` estimated minutes (the daily budget split
evenly), the last is typed `apply`, and the others alternate learn /
practice. -/
theorem c6_lesson_fallback (o : Oracle) (c : CourseRow) (j : JobRow)
    (hq : j.status = "queued") (ht : j.jtype = "GENERATE_COURSE") :
    (∀ sk, skeletonResult o (skelInputFor c) = Except.ok sk →
      (processNextJob o c j).job.status = "succeeded") ∧
    (∀ bc, (processNextJob o c j).course = some bc →
      ∀ bm ∈ bc.modules, ∀ e, o.llmLessons (lessonsInputFor c bm.data) = Except.error e →
        bm.lessons = fallbackLessons bm.data.title c.timePerDay ∧
        bm.lessons.length = 4 ∧
        (∀ l ∈ bm.lessons, l.estimatedMinutes = c.timePerDay / 4) ∧
        bm.lessons.map (fun l => l.type)
          = [LessonType.learn, LessonType.practice, LessonType.learn,
             LessonType.apply]) := by
  constructor
  · intro sk hskr
    exact (disp_success_course o c j hq ht hskr).1
  · intro bc hbc bm hbm e he
    obtain ⟨sk, hskr, rfl⟩ := disp_course_inv o c j hq ht bc hbc
    simp only [courseModules, List.mem_map] at hbm
    obtain ⟨m, hm, rfl⟩ := hbm
    have hfall : storedLessonsFor o c m = fallbackLessons m.title c.timePerDay := by
      unfold storedLessonsFor
      rw [he]
    refine ⟨hfall, ?_, ?_, ?_⟩
    · rw [hfall]; rfl
    · rw [hfall]; exact fallbackLessons_minutes m.title c.timePerDay
    · rw [hfall]; exact fallbackLessons_types m.title c.timePerDay

/-- Witness for `c6_lesson_fallback`: the oracle whose lesson generation
always fails; the job still succeeds and every module carries the 4
fallback lessons. -/
theorem c6_lesson_fallback_witness :
    (∀ sk, skeletonResult lessonsFailOracle (skelInputFor demoCourse) = Except.ok sk →
      (processNextJob lessonsFailOracle demoCourse demoJob).job.status = "succeeded") ∧
    (∀ bc, (processNextJob lessonsFailOracle demoCourse demoJob).course = some bc →
      ∀ bm ∈ bc.modules,
        ∀ e, lessonsFailOracle.llmLessons (lessonsInputFor demoCourse bm.data)
            = Except.error e →
          bm.lessons = fallbackLessons bm.data.title demoCourse.timePerDay ∧
          bm.lessons.length = 4 ∧
          (∀ l ∈ bm.lessons, l.estimatedMinutes = demoCourse.timePerDay / 4) ∧
          bm.lessons.map (fun l => l.type)
            = [LessonType.learn, LessonType.practice, LessonType.learn,
               LessonType.apply]) :=
  c6_lesson_fallback lessonsFailOracle demoCourse demoJob rfl rfl

/-- Claim C9: the orchestrator requests at most 3 videos per module (the call
site passes `maxResults = 3`), so every module of every built course carries
at most 3 resources — tighter than the 0–5 the spec allows. -/
theorem c9_at_most_three_resources (o : Oracle) (c : CourseRow) (j : JobRow)
    (hv : Oracle.Valid o) (hq : j.status = "queued") (ht : j.jtype = "GENERATE_COURSE") :
    ∀ bc, (processNextJob o c j).course = some bc →
      ∀ bm ∈ bc.modules, bm.resources.length ≤ 3 := by
  intro bc hbc bm hbm
  obtain ⟨sk, hskr, rfl⟩ := disp_course_inv o c j hq ht bc hbc
  simp only [courseModules, List.mem_map] at hbm
  obtain ⟨m, hm, rfl⟩ := hbm
  exact storedResourcesFor_length o c m hv

/-- Witness for `c9_at_most_three_resources`: the all-providers-succeed run
stores 2 resources per module, and the bound holds for its course. -/
theorem c9_at_most_three_resources_witness :
    ((processNextJob okOracle demoCourse demoJob).course.map
        (fun bc => bc.modules.map fun bm => bm.resources.length)) = some [2, 2, 2, 2, 2] ∧
      ∀ bc, (processNextJob okOracle demoCourse demoJob).course = some bc →
        ∀ bm ∈ bc.modules, bm.resources.length ≤ 3 :=
  ⟨by decide,
   c9_at_most_three_resources okOracle demoCourse demoJob okOracle_valid rfl rfl⟩

/-- Claim C7: video-search failures are strictly non-fatal.  The job's final
status does not depend on the video provider (it succeeds whenever the
skeleton resolved); when every video search fails, every module of the built
course carries zero resources, the per-module stage-4 warn event is in the
log for every module, and the stage-4 warn events number exactly one per
module; the search query for a module is `"{topic} {module title} tutorial"`. -/
theorem c7_video_failures_nonfatal (o : Oracle) (c : CourseRow) (j : JobRow)
    (hq : j.status = "queued") (ht : j.jtype = "GENERATE_COURSE")
    (hyt : ∀ q k, ∃ e, o.ytSearch q k = Except.error e) :
    (∀ sk, skeletonResult o (skelInputFor c) = Except.ok sk →
      (processNextJob o c j).job.status = "succeeded") ∧
    (∀ bc, (processNextJob o c j).course = some bc →
      (∀ bm ∈ bc.modules, bm.resources = []) ∧
      (∀ bm ∈ bc.modules,
        stage4WarnEvent bm.data.order ∈ (processNextJob o c j).events) ∧
      (processNextJob o c j).events.countP isStage4Warn = bc.modules.length) ∧
    (∀ m : ModuleData, queryFor c m = c.topic ++ " " ++ m.title ++ " tutorial") := by
  refine ⟨?_, ?_, fun m => rfl⟩
  · intro sk hskr
    exact (disp_success_course o c j hq ht hskr).1
  · intro bc hbc
    obtain ⟨sk, hskr, rfl⟩ := disp_course_inv o c j hq ht bc hbc
    have hres := exec_result o c (initRun j)
    rw [hskr] at hres
    simp only [Except.map] at hres
    have hok : executeGenerateCourse o c (initRun j)
        = ((executeGenerateCourse o c (initRun j)).1,
           Except.ok { modules := courseModules o c (sortByOrder sk.modules),
                       status := "active" }) := by
      rw [← hres]
    rw [processNextJob_ok o c j hq ht _ hok]
    obtain ⟨pre, e2, e3, hpre, he2, he3, hevents⟩ :=
      exec_events_allfail o c (initRun j) sk hskr hyt
    refine ⟨?_, ?_, ?_⟩
    · intro bm hbm
      simp only [courseModules, List.mem_map] at hbm
      obtain ⟨m, hm, rfl⟩ := hbm
      show storedResourcesFor o c m = []
      obtain ⟨e, he⟩ := hyt (queryFor c m) 3
      unfold storedResourcesFor
      rw [he]
    · intro bm hbm
      simp only [courseModules, List.mem_map] at hbm
      obtain ⟨m, hm, rfl⟩ := hbm
      show stage4WarnEvent m.order
        ∈ ((executeGenerateCourse o c (initRun j)).1).events
          ++ [⟨"Completed", Severity.info, "Job completed successfully"⟩]
      apply List.mem_append_left
      rw [hevents]
      have hw : stage4WarnEvent m.order
          ∈ (sortByOrder sk.modules).map (fun m2 => stage4WarnEvent m2.order) :=
        List.mem_map_of_mem _ hm
      simp only [List.mem_append]
      tauto
    · show (((executeGenerateCourse o c (initRun j)).1).events
          ++ ([⟨"Completed", Severity.info, "Job completed successfully"⟩] : List JEvent)).countP
            isStage4Warn
        = (courseModules o c (sortByOrder sk.modules)).length
      rw [List.countP_append, hevents]
      simp only [List.countP_append]
      rw [countP_zero_of_stage pre "Stage 1" (by decide) hpre,
        countP_zero_of_stage e2 "Stage 2" (by decide) he2,
        countP_zero_of_stage e3 "Stage 3" (by decide) he3,
        countP_warnMap]
      rw [show (([⟨"Stage 2", Severity.info,
          "Starting lesson generation for all modules"⟩] : List JEvent)).countP
            isStage4Warn = 0 from by decide]
      rw [show (([⟨"Stage 3", Severity.info,
          "Starting quiz generation for all modules"⟩] : List JEvent)).countP
            isStage4Warn = 0 from by decide]
      rw [show (([⟨"Stage 4", Severity.info,
          "Starting YouTube resource search"⟩] : List JEvent)).countP
            isStage4Warn = 0 from by decide]
      rw [show (([⟨"Stage 5", Severity.info, "Finalizing course"⟩,
          ⟨"Stage 5", Severity.info, "Course activated"⟩] : List JEvent)).countP
            isStage4Warn = 0 from by decide]
      rw [show (([⟨"Completed", Severity.info,
          "Job completed successfully"⟩] : List JEvent)).countP
            isStage4Warn = 0 from by decide]
      rw [show (((initRun j).events).countP isStage4Warn) = 0 from rfl]
      simp [courseModules]

/-- Witness for `c7_video_failures_nonfatal`: the oracle whose video search
always fails; the job still succeeds with zero resources and one stage-4
warn per module. -/
theorem c7_video_failures_nonfatal_witness :
    (∀ sk, skeletonResult noVideoOracle (skelInputFor demoCourse) = Except.ok sk →
      (processNextJob noVideoOracle demoCourse demoJob).job.status = "succeeded") ∧
    (∀ bc, (processNextJob noVideoOracle demoCourse demoJob).course = some bc →
      (∀ bm ∈ bc.modules, bm.resources = []) ∧
      (∀ bm ∈ bc.modules,
        stage4WarnEvent bm.data.order
          ∈ (processNextJob noVideoOracle demoCourse demoJob).events) ∧
      (processNextJob noVideoOracle demoCourse demoJob).events.countP isStage4Warn
        = bc.modules.length) ∧
    (∀ m : ModuleData,
      queryFor demoCourse m = demoCourse.topic ++ " " ++ m.title ++ " tutorial") :=
  c7_video_failures_nonfatal noVideoOracle demoCourse demoJob rfl rfl
    (fun _ _ => ⟨demoErr, rfl⟩)

/-- Witness for `c4_progress_monotone`: the concrete all-providers-succeed
run has a non-decreasing percent trace ending at 100. -/
theorem c4_progress_monotone_witness :
    List.Chain' (fun a b => a ≤ b)
        ((processNextJob okOracle demoCourse demoJob).writes.map
          (fun w => w.progressPercent)) ∧
      ((processNextJob okOracle demoCourse demoJob).job.status = "succeeded" →
        ((processNextJob okOracle demoCourse demoJob).writes.map
          (fun w => w.progressPercent)).getLast? = some 100) :=
  c4_progress_monotone okOracle demoCourse demoJob okOracle_valid rfl

end Creo
